import Mathlib

/-!
# RDMA example programs: shallow embedding

Three C programs are embedded:

* `basic_recv.c`  (`BasicRecv.main`): unreliable-datagram receiver over the verbs API;
* `rdma_client.c` (`Client.run`) and `rdma_server.c` (`Server.run`): connected-mode
  message exchange over the rdma_cm API.

The programs are sequences of library calls whose results the program cannot
predict.  Each model takes an environment `Env` that fixes what every library
call answers, and yields the list of library calls made, in order (the trace),
together with the way the function was left.  A call inside a loop draws its
answers from a list; when the list is used up the execution is reported as still
running, so that a finite environment describes a prefix of a longer execution.
Pointers are natural numbers with `0` for `NULL`; where only the null test of a
pointer matters the environment holds a `Bool` (the pointer is non-null).
Diagnostics written with `perror`, `fprintf` and `printf` are not part of the
trace, except the `received: %s` line of `basic_recv`, whose buffer offset is
recorded.
-/

/-! ## Traces -/

/-- Every event of `tr` that satisfies `q` comes after some event satisfying `p`. -/
def Before {ε : Type} (p q : ε → Prop) (tr : List ε) : Prop :=
  ∀ pre e post, tr = pre ++ e :: post → q e → ∃ x, x ∈ pre ∧ p x

/-- No event satisfying `q` comes after an event satisfying `p`. -/
def NeverAfter {ε : Type} (p q : ε → Prop) (tr : List ε) : Prop :=
  ∀ pre e post, tr = pre ++ e :: post → p e → ∀ x, x ∈ post → ¬ q x

/-- Stack discipline of a trace: `cr e` names the resource that event `e` creates,
`de e` the one it destroys.  Starting from the stack `st` of live resources, every
destruction must hit the most recently created live resource. -/
def lifo {ε ρ : Type} [DecidableEq ρ] (cr de : ε → Option ρ) : List ρ → List ε → Bool
  | _, [] => true
  | st, e :: es =>
    match de e with
    | some r =>
      match st with
      | [] => false
      | top :: st' => decide (top = r) && lifo cr de st' es
    | none =>
      match cr e with
      | some r => lifo cr de (r :: st) es
      | none => lifo cr de st es

/-- How a modelled function was left. -/
inductive Outcome where
  /-- The function returned this value. -/
  | exit (code : Int)
  /-- The answers of the environment are used up inside a loop: still running. -/
  | running
  /-- The C standard gives the execution no meaning. -/
  | undefined
  deriving DecidableEq, Repr

/-! ## basic_recv.c -/

namespace BasicRecv

def REGION_SIZE : Nat := 0x1800
def CQ_SIZE : Nat := 0x100
def MAX_NUM_RECVS : Nat := 0x10
def MAX_GATHER_ENTRIES : Nat := 2
def MAX_SCATTER_ENTRIES : Nat := 2
def WELL_KNOWN_QKEY : Nat := 0x11111111
def MAX_MSG_SIZE : Nat := 0x100

/-- One result of `getopt_long`. -/
inductive Opt where
  | d (optarg : String)
  | i (optarg : Int)
  | other
  deriving DecidableEq, Repr

/-- The variables set by the option loop. -/
structure Args where
  devname : Option String
  dev_port : Int
  deriving DecidableEq, Repr

/-- The option loop of `main`; `none` stands for `usage(argv[0]); return 1;`.  The
argument of `-i` is the value of `strtol` as stored in the `int` variable `dev_port`. -/
def parseOpts : List Opt → Args → Option Args
  | [], a => some a
  | Opt.d s :: rest, a => parseOpts rest { a with devname := some s }
  | Opt.i p :: rest, a => if p < 0 then none else parseOpts rest { a with dev_port := p }
  | Opt.other :: _, _ => none

/-- The search loop `for (i = 0; i < num_devices; ++i) if (!strcmp(...)) break;`:
the value of `i` after the loop, counted from the head of the list. -/
def findDevice (devname : String) : List String → Nat
  | [] => 0
  | n :: ns => if n = devname then 0 else findDevice devname ns + 1

/-- The type `struct ibv_sge`; `addr` is the byte offset from `mr_buffer`. -/
structure Sge where
  addr : Nat
  length : Nat
  lkey : Nat
  deriving DecidableEq, Repr

/-- The type `struct ibv_recv_wr` with `next = NULL`. -/
structure RecvWr where
  wr_id : Nat
  sg_list : Sge
  num_sge : Nat
  deriving DecidableEq, Repr

/-- The fields of `struct ibv_wc` a completion carries. -/
structure Wc where
  wr_id : Nat
  status : Nat
  deriving DecidableEq, Repr

inductive QpState where
  | INIT
  | RTR
  deriving DecidableEq, Repr

/-- The resources `main` creates. -/
inductive Res where
  | dev_list
  | context
  | pd
  | mr
  | cq
  | qp
  deriving DecidableEq, Repr

/-- Library calls of `main`, with the arguments and results the program sees. -/
inductive Event where
  | get_device_list (ok : Bool)
  | open_device (index : Nat) (ok : Bool)
  | alloc_pd (ok : Bool)
  | reg_mr (length : Nat) (ok : Bool)
  | create_cq (cqe : Nat) (ok : Bool)
  | create_qp (max_recv_wr : Nat) (ok : Bool)
  | modify_qp (state : QpState) (ret : Int)
  | post_recv (wr : RecvWr) (ret : Int)
  | poll_cq (ne : Int) (wc : Wc)
  | received (offset : Nat)
  | getchar
  | destroy_qp
  | destroy_cq
  | dereg_mr
  | dealloc_pd
  | close_device
  | free_device_list
  deriving DecidableEq, Repr

/-- One answer of `ibv_poll_cq(cq, 1, &wc)`. -/
structure PollResp where
  ne : Int
  wc : Wc
  deriving DecidableEq, Repr

/-- The answers given during one pass of the `while (1)` loop. -/
structure Round where
  posts : List Int
  polls : List PollResp
  deriving DecidableEq, Repr

/-- What the library answers to `main`. -/
structure Env where
  opts : List Opt
  dev_list : Option (List String)
  context : Bool
  pd : Bool
  mr : Option Nat
  cq : Bool
  qp : Bool
  modify_init : Int
  modify_rtr : Int
  rounds : List Round
  deriving DecidableEq, Repr

structure Result where
  trace : List Event
  outcome : Outcome
  deriving DecidableEq, Repr

/-- How a loop inside `main` ends: it runs to its end, or `main` is left. -/
inductive Step where
  | done
  | stop (o : Outcome)
  deriving DecidableEq, Repr

/-- The work request built in pass `i` of the `for` loop. -/
def mkWr (lkey i : Nat) : RecvWr :=
  { wr_id := i, sg_list := { addr := MAX_MSG_SIZE * i, length := MAX_MSG_SIZE, lkey := lkey },
    num_sge := 1 }

/-- The loop `for (i = 0; i < 4; i++) { ...; if (ibv_post_recv(qp,&wr,&bad_wr)) return 1; }`
from the value `i` on. -/
def postRecvs (lkey : Nat) : Nat → List Int → List Event × Step
  | i, [] => if i < 4 then ([], Step.stop Outcome.running) else ([], Step.done)
  | i, r :: rs =>
    if i < 4 then
      if r ≠ 0 then ([Event.post_recv (mkWr lkey i) r], Step.stop (Outcome.exit 1))
      else (Event.post_recv (mkWr lkey i) r :: (postRecvs lkey (i + 1) rs).1,
            (postRecvs lkey (i + 1) rs).2)
    else ([], Step.done)

/-- The loop `while (i < 4) { do { ne = ibv_poll_cq(cq, 1, &wc); } while (ne == 0); ... i++; }`
from the value `i` on. -/
def pollCqs : Nat → List PollResp → List Event × Step
  | i, [] => if i < 4 then ([], Step.stop Outcome.running) else ([], Step.done)
  | i, p :: ps =>
    if i < 4 then
      if p.ne = 0 then (Event.poll_cq p.ne p.wc :: (pollCqs i ps).1, (pollCqs i ps).2)
      else if p.ne < 0 then ([Event.poll_cq p.ne p.wc], Step.stop (Outcome.exit 1))
      else if p.wc.status ≠ 0 then ([Event.poll_cq p.ne p.wc], Step.stop (Outcome.exit 1))
      else (Event.poll_cq p.ne p.wc :: Event.received (MAX_MSG_SIZE * i + 40)
              :: (pollCqs (i + 1) ps).1, (pollCqs (i + 1) ps).2)
    else ([], Step.done)

/-- The loop `while (1) { post; poll; getchar(); }`.  It has no exit of its own. -/
def recvLoop (lkey : Nat) : List Round → List Event × Outcome
  | [] => ([], Outcome.running)
  | r :: rs =>
    match (postRecvs lkey 0 r.posts).2 with
    | Step.stop o => ((postRecvs lkey 0 r.posts).1, o)
    | Step.done =>
      match (pollCqs 0 r.polls).2 with
      | Step.stop o => ((postRecvs lkey 0 r.posts).1 ++ (pollCqs 0 r.polls).1, o)
      | Step.done =>
        ((postRecvs lkey 0 r.posts).1 ++ (pollCqs 0 r.polls).1
            ++ Event.getchar :: (recvLoop lkey rs).1, (recvLoop lkey rs).2)

def free_dev_list : List Event := [Event.free_device_list]
def close_device : List Event := Event.close_device :: free_dev_list
def close_pd : List Event := Event.dealloc_pd :: close_device
def free_mr : List Event := Event.dereg_mr :: close_pd
def free_cq : List Event := Event.destroy_cq :: free_mr
def free_qp : List Event := Event.destroy_qp :: free_cq

/-- The part of `main` after the device was picked: `i` is its index. -/
def withDevice (env : Env) (i : Nat) : Result :=
  let t1 := [Event.get_device_list true, Event.open_device i env.context]
  if env.context = false then ⟨t1 ++ free_dev_list, Outcome.exit 0⟩ else
  let t2 := t1 ++ [Event.alloc_pd env.pd]
  if env.pd = false then ⟨t2 ++ close_device, Outcome.exit 0⟩ else
  match env.mr with
  | none => ⟨t2 ++ Event.reg_mr REGION_SIZE false :: close_pd, Outcome.exit 0⟩
  | some lkey =>
    let t3 := t2 ++ [Event.reg_mr REGION_SIZE true, Event.create_cq CQ_SIZE env.cq]
    if env.cq = false then ⟨t3 ++ free_mr, Outcome.exit 0⟩ else
    let t4 := t3 ++ [Event.create_qp MAX_NUM_RECVS env.qp]
    if env.qp = false then ⟨t4 ++ free_cq, Outcome.exit 0⟩ else
    let t5 := t4 ++ [Event.modify_qp QpState.INIT env.modify_init]
    if env.modify_init ≠ 0 then ⟨t5 ++ free_qp, Outcome.exit 0⟩ else
    let t6 := t5 ++ [Event.modify_qp QpState.RTR env.modify_rtr]
    if env.modify_rtr ≠ 0 then ⟨t6 ++ free_qp, Outcome.exit 0⟩ else
    ⟨t6 ++ (recvLoop lkey env.rounds).1, (recvLoop lkey env.rounds).2⟩

/-- The function `main` of `basic_recv.c`. -/
def main (env : Env) : Result :=
  match parseOpts env.opts { devname := none, dev_port := 1 } with
  | none => ⟨[], Outcome.exit 1⟩
  | some args =>
    match env.dev_list with
    | none => ⟨[Event.get_device_list false], Outcome.exit 1⟩
    | some names =>
      match args.devname with
      | none =>
        -- without `-d` the pointer `devname` is null: `strcmp` is reached with it as soon
        -- as there is a device; with no device the loop body never runs
        if names = [] then ⟨Event.get_device_list true :: free_dev_list, Outcome.exit 0⟩
        else ⟨[Event.get_device_list true], Outcome.undefined⟩
      | some devname =>
        if findDevice devname names = names.length then
          ⟨Event.get_device_list true :: free_dev_list, Outcome.exit 0⟩
        else withDevice env (findDevice devname names)

/-- The resource an event creates, when the call succeeded. -/
def created : Event → Option Res
  | Event.get_device_list true => some Res.dev_list
  | Event.open_device _ true => some Res.context
  | Event.alloc_pd true => some Res.pd
  | Event.reg_mr _ true => some Res.mr
  | Event.create_cq _ true => some Res.cq
  | Event.create_qp _ true => some Res.qp
  | _ => none

/-- The resource an event destroys. -/
def destroyed : Event → Option Res
  | Event.destroy_qp => some Res.qp
  | Event.destroy_cq => some Res.cq
  | Event.dereg_mr => some Res.mr
  | Event.dealloc_pd => some Res.pd
  | Event.close_device => some Res.context
  | Event.free_device_list => some Res.dev_list
  | _ => none

/-- The call failed in the sense of the test `main` applies to its result. -/
def failed : Event → Bool
  | Event.get_device_list ok => !ok
  | Event.open_device _ ok => !ok
  | Event.alloc_pd ok => !ok
  | Event.reg_mr _ ok => !ok
  | Event.create_cq _ ok => !ok
  | Event.create_qp _ ok => !ok
  | Event.modify_qp _ ret => decide (ret ≠ 0)
  | Event.post_recv _ ret => decide (ret ≠ 0)
  | Event.poll_cq ne wc => decide (ne < 0) || (decide (0 < ne) && decide (wc.status ≠ 0))
  | _ => false

/-- The completions reported with `received: %s`: each successful `ibv_poll_cq`
followed by the print, as (request id of the entry, offset printed from). -/
def reports : List Event → List (Nat × Nat)
  | [] => []
  | Event.poll_cq _ wc :: Event.received off :: es => (wc.wr_id, off) :: reports es
  | _ :: es => reports es

end BasicRecv

/-! ## rdma_client.c and rdma_server.c: what they share -/

namespace Cm

/-- The value of `IBV_SEND_INLINE` in `<infiniband/verbs.h>`, `1 << 3`. -/
def IBV_SEND_INLINE : Nat := 8

/-- The two global message buffers, `uint8_t send_msg[16]` and `uint8_t recv_msg[16]`. -/
inductive Buf where
  | send_msg
  | recv_msg
  deriving DecidableEq, Repr

/-- One answer of `rdma_get_send_comp` or `rdma_get_recv_comp`: the value returned
and the status of the entry stored in `wc`. -/
structure CompResp where
  ret : Int
  status : Nat
  deriving DecidableEq, Repr

/-- Library calls of `run`, with the arguments and results the program sees.
Identifiers and memory regions are pointers.  The calls after `disconnect` are the
ones whose result `run` discards. -/
inductive Event where
  | getaddrinfo (ret : Int)
  | create_ep (ret : Int) (id : Nat)
  | listen (id : Nat) (ret : Int)
  | get_request (listen_id : Nat) (ret : Int) (id : Nat)
  | query_qp (id : Nat) (ret : Int)
  | reg_msgs (id : Nat) (buf : Buf) (length : Nat) (mr : Nat)
  | post_recv (id : Nat) (buf : Buf) (length : Nat) (mr : Nat) (ret : Int)
  | connect (id : Nat) (ret : Int)
  | accept (id : Nat) (ret : Int)
  | post_send (id : Nat) (buf : Buf) (length : Nat) (mr : Nat) (flags : Nat) (ret : Int)
  | get_send_comp (id : Nat) (ret : Int) (status : Nat)
  | get_recv_comp (id : Nat) (ret : Int) (status : Nat)
  | disconnect (id : Nat)
  | dereg_mr (mr : Nat)
  | destroy_ep (id : Nat)
  | freeaddrinfo
  deriving DecidableEq, Repr

structure Result where
  trace : List Event
  outcome : Outcome
  deriving DecidableEq, Repr

/-- The loop `while ((ret = rdma_get_..._comp(id, &wc)) == 0);`: the calls made and
the value of `ret` after the loop, `none` while the loop is still spinning. -/
def waitComp (call : Int → Nat → Event) : List CompResp → List Event × Option Int
  | [] => ([], none)
  | r :: rs =>
    if r.ret = 0 then (call r.ret r.status :: (waitComp call rs).1, (waitComp call rs).2)
    else ([call r.ret r.status], some r.ret)

/-- The resources `run` acquires. -/
inductive Res where
  | addrinfo
  | ep (id : Nat)
  | mr (ptr : Nat)
  deriving DecidableEq, Repr

/-- The resource an event acquires, when the call succeeded. -/
def created : Event → Option Res
  | Event.getaddrinfo ret => if ret = 0 then some Res.addrinfo else none
  | Event.create_ep ret id => if ret = 0 then some (Res.ep id) else none
  | Event.get_request _ ret id => if ret = 0 then some (Res.ep id) else none
  | Event.reg_msgs _ _ _ mr => if mr = 0 then none else some (Res.mr mr)
  | _ => none

/-- The resource an event releases. -/
def destroyed : Event → Option Res
  | Event.dereg_mr mr => some (Res.mr mr)
  | Event.destroy_ep id => some (Res.ep id)
  | Event.freeaddrinfo => some Res.addrinfo
  | _ => none

/-- The call failed in the sense of the test `run` applies to its result. -/
def failed : Event → Bool
  | Event.getaddrinfo ret => decide (ret ≠ 0)
  | Event.create_ep ret _ => decide (ret ≠ 0)
  | Event.listen _ ret => decide (ret ≠ 0)
  | Event.get_request _ ret _ => decide (ret ≠ 0)
  | Event.query_qp _ ret => decide (ret ≠ 0)
  | Event.reg_msgs _ _ _ mr => decide (mr = 0)
  | Event.post_recv _ _ _ _ ret => decide (ret ≠ 0)
  | Event.connect _ ret => decide (ret ≠ 0)
  | Event.accept _ ret => decide (ret ≠ 0)
  | Event.post_send _ _ _ _ _ ret => decide (ret ≠ 0)
  | Event.get_send_comp _ ret _ => decide (ret < 0)
  | Event.get_recv_comp _ ret _ => decide (ret < 0)
  | _ => false

/-- The event is a post, a connect or an accept. -/
def isAction : Event → Bool
  | Event.post_recv _ _ _ _ _ => true
  | Event.post_send _ _ _ _ _ _ => true
  | Event.connect _ _ => true
  | Event.accept _ _ => true
  | _ => false

/-- The event is a completion wait that returned an entry with a status other than
success (`IBV_WC_SUCCESS` is `0`). -/
def badCompletion : Event → Bool
  | Event.get_send_comp _ ret status => decide (0 < ret) && decide (status ≠ 0)
  | Event.get_recv_comp _ ret status => decide (0 < ret) && decide (status ≠ 0)
  | _ => false

end Cm

/-! ## rdma_client.c -/

namespace Client

open Cm

/-- The global variables `id`, `mr`, `send_mr` and `send_flags`. -/
structure Globals where
  id : Nat
  mr : Nat
  send_mr : Nat
  send_flags : Nat
  deriving DecidableEq, Repr

/-- Objects with static storage start as zero. -/
def Globals.init : Globals := { id := 0, mr := 0, send_mr := 0, send_flags := 0 }

/-- What the library answers to `run`.  The field `id` is the identifier
`rdma_create_ep` stores, `max_inline_data` the value it leaves in
`attr.cap.max_inline_data`; `mr` and `send_mr` are the pointers `rdma_reg_msgs`
returns for `recv_msg` and for `send_msg`. -/
structure Env where
  getaddrinfo : Int
  create_ep : Int
  id : Nat
  max_inline_data : Nat
  mr : Nat
  send_mr : Nat
  post_recv : Int
  connect : Int
  post_send : Int
  send_comp : List CompResp
  recv_comp : List CompResp
  deriving DecidableEq, Repr

def out_free_addrinfo : List Event := [Event.freeaddrinfo]
def out_destroy_ep (g : Globals) : List Event := Event.destroy_ep g.id :: out_free_addrinfo
def out_dereg_recv (g : Globals) : List Event := Event.dereg_mr g.mr :: out_destroy_ep g
def out_dereg_send (g : Globals) : List Event :=
  (if g.send_flags &&& IBV_SEND_INLINE = 0 then [Event.dereg_mr g.send_mr] else [])
    ++ out_dereg_recv g
def out_disconnect (g : Globals) : List Event := Event.disconnect g.id :: out_dereg_send g

/-- The function `run` from `rdma_post_recv` on, with the globals as set before. -/
def exchange (g : Globals) (env : Env) : Result :=
  let t1 := [Event.post_recv g.id Buf.recv_msg 16 g.mr env.post_recv]
  if env.post_recv ≠ 0 then ⟨t1 ++ out_dereg_send g, Outcome.exit env.post_recv⟩ else
  let t2 := t1 ++ [Event.connect g.id env.connect]
  if env.connect ≠ 0 then ⟨t2 ++ out_dereg_send g, Outcome.exit env.connect⟩ else
  let t3 := t2 ++ [Event.post_send g.id Buf.send_msg 16 g.send_mr g.send_flags env.post_send]
  if env.post_send ≠ 0 then ⟨t3 ++ out_disconnect g, Outcome.exit env.post_send⟩ else
  match (waitComp (Event.get_send_comp g.id) env.send_comp).2 with
  | none => ⟨t3 ++ (waitComp (Event.get_send_comp g.id) env.send_comp).1, Outcome.running⟩
  | some ret =>
    let t4 := t3 ++ (waitComp (Event.get_send_comp g.id) env.send_comp).1
    if ret < 0 then ⟨t4 ++ out_disconnect g, Outcome.exit ret⟩ else
    match (waitComp (Event.get_recv_comp g.id) env.recv_comp).2 with
    | none => ⟨t4 ++ (waitComp (Event.get_recv_comp g.id) env.recv_comp).1, Outcome.running⟩
    | some ret =>
      ⟨t4 ++ (waitComp (Event.get_recv_comp g.id) env.recv_comp).1 ++ out_disconnect g,
        Outcome.exit (if ret < 0 then ret else 0)⟩

/-- The function `run` of `rdma_client.c`, started on the globals `g0`. -/
def runFrom (g0 : Globals) (env : Env) : Result :=
  let t1 := [Event.getaddrinfo env.getaddrinfo]
  if env.getaddrinfo ≠ 0 then ⟨t1, Outcome.exit env.getaddrinfo⟩ else
  let t2 := t1 ++ [Event.create_ep env.create_ep env.id]
  let g1 : Globals :=
    { g0 with send_flags := if 16 ≤ env.max_inline_data then IBV_SEND_INLINE else g0.send_flags }
  if env.create_ep ≠ 0 then ⟨t2 ++ out_free_addrinfo, Outcome.exit env.create_ep⟩ else
  let g2 : Globals := { g1 with id := env.id, mr := env.mr }
  let t3 := t2 ++ [Event.reg_msgs g2.id Buf.recv_msg 16 env.mr]
  if env.mr = 0 then ⟨t3 ++ out_destroy_ep g2, Outcome.exit (-1)⟩ else
  if g2.send_flags &&& IBV_SEND_INLINE = 0 then
    let g3 : Globals := { g2 with send_mr := env.send_mr }
    let t4 := t3 ++ [Event.reg_msgs g3.id Buf.send_msg 16 env.send_mr]
    if env.send_mr = 0 then ⟨t4 ++ out_dereg_recv g3, Outcome.exit (-1)⟩ else
    ⟨t4 ++ (exchange g3 env).trace, (exchange g3 env).outcome⟩
  else ⟨t3 ++ (exchange g2 env).trace, (exchange g2 env).outcome⟩

/-- The function `run` as `main` calls it: once, on the initial globals. -/
def run (env : Env) : Result := runFrom Globals.init env

end Client

/-! ## rdma_server.c -/

namespace Server

open Cm

/-- The global variables `listen_id`, `id`, `mr`, `send_mr` and `send_flags`. -/
structure Globals where
  listen_id : Nat
  id : Nat
  mr : Nat
  send_mr : Nat
  send_flags : Nat
  deriving DecidableEq, Repr

/-- Objects with static storage start as zero. -/
def Globals.init : Globals :=
  { listen_id := 0, id := 0, mr := 0, send_mr := 0, send_flags := 0 }

/-- What the library answers to `run`.  The field `listen_id` is the identifier
`rdma_create_ep` stores, `id` the one `rdma_get_request` stores, `max_inline_data`
the value `ibv_query_qp` leaves in `init_attr.cap.max_inline_data`; `mr` and
`send_mr` are the pointers `rdma_reg_msgs` returns for `recv_msg` and for
`send_msg`. -/
structure Env where
  getaddrinfo : Int
  create_ep : Int
  listen_id : Nat
  listen : Int
  get_request : Int
  id : Nat
  query_qp : Int
  max_inline_data : Nat
  mr : Nat
  send_mr : Nat
  post_recv : Int
  accept : Int
  recv_comp : List CompResp
  post_send : Int
  send_comp : List CompResp
  deriving DecidableEq, Repr

def out_free_addrinfo : List Event := [Event.freeaddrinfo]
def out_destroy_listen_ep (g : Globals) : List Event :=
  Event.destroy_ep g.listen_id :: out_free_addrinfo
def out_destroy_accept_ep (g : Globals) : List Event :=
  Event.destroy_ep g.id :: out_destroy_listen_ep g
def out_dereg_recv (g : Globals) : List Event := Event.dereg_mr g.mr :: out_destroy_accept_ep g
def out_dereg_send (g : Globals) : List Event :=
  (if g.send_flags &&& IBV_SEND_INLINE = 0 then [Event.dereg_mr g.send_mr] else [])
    ++ out_dereg_recv g
def out_disconnect (g : Globals) : List Event := Event.disconnect g.id :: out_dereg_send g

/-- The function `run` from `rdma_post_recv` on, with the globals as set before. -/
def exchange (g : Globals) (env : Env) : Result :=
  let t1 := [Event.post_recv g.id Buf.recv_msg 16 g.mr env.post_recv]
  if env.post_recv ≠ 0 then ⟨t1 ++ out_dereg_send g, Outcome.exit env.post_recv⟩ else
  let t2 := t1 ++ [Event.accept g.id env.accept]
  if env.accept ≠ 0 then ⟨t2 ++ out_dereg_send g, Outcome.exit env.accept⟩ else
  match (waitComp (Event.get_recv_comp g.id) env.recv_comp).2 with
  | none => ⟨t2 ++ (waitComp (Event.get_recv_comp g.id) env.recv_comp).1, Outcome.running⟩
  | some ret =>
    let t3 := t2 ++ (waitComp (Event.get_recv_comp g.id) env.recv_comp).1
    if ret < 0 then ⟨t3 ++ out_disconnect g, Outcome.exit ret⟩ else
    let t4 := t3 ++ [Event.post_send g.id Buf.send_msg 16 g.send_mr g.send_flags env.post_send]
    if env.post_send ≠ 0 then ⟨t4 ++ out_disconnect g, Outcome.exit env.post_send⟩ else
    match (waitComp (Event.get_send_comp g.id) env.send_comp).2 with
    | none => ⟨t4 ++ (waitComp (Event.get_send_comp g.id) env.send_comp).1, Outcome.running⟩
    | some ret =>
      ⟨t4 ++ (waitComp (Event.get_send_comp g.id) env.send_comp).1 ++ out_disconnect g,
        Outcome.exit (if ret < 0 then ret else 0)⟩

/-- The function `run` of `rdma_server.c`, started on the globals `g0`. -/
def runFrom (g0 : Globals) (env : Env) : Result :=
  let t1 := [Event.getaddrinfo env.getaddrinfo]
  if env.getaddrinfo ≠ 0 then ⟨t1, Outcome.exit env.getaddrinfo⟩ else
  let g1 : Globals := { g0 with listen_id := env.listen_id }
  let t2 := t1 ++ [Event.create_ep env.create_ep env.listen_id]
  if env.create_ep ≠ 0 then ⟨t2 ++ out_free_addrinfo, Outcome.exit env.create_ep⟩ else
  let t3 := t2 ++ [Event.listen g1.listen_id env.listen]
  if env.listen ≠ 0 then ⟨t3 ++ out_destroy_listen_ep g1, Outcome.exit env.listen⟩ else
  let g2 : Globals := { g1 with id := env.id }
  let t4 := t3 ++ [Event.get_request g1.listen_id env.get_request env.id]
  if env.get_request ≠ 0 then
    ⟨t4 ++ out_destroy_listen_ep g1, Outcome.exit env.get_request⟩ else
  let t5 := t4 ++ [Event.query_qp g2.id env.query_qp]
  if env.query_qp ≠ 0 then ⟨t5 ++ out_destroy_accept_ep g2, Outcome.exit env.query_qp⟩ else
  let g3 : Globals :=
    { g2 with send_flags := if 16 ≤ env.max_inline_data then IBV_SEND_INLINE
                            else g2.send_flags }
  let g4 : Globals := { g3 with mr := env.mr }
  let t6 := t5 ++ [Event.reg_msgs g3.id Buf.recv_msg 16 env.mr]
  if env.mr = 0 then ⟨t6 ++ out_destroy_accept_ep g4, Outcome.exit (-1)⟩ else
  if g4.send_flags &&& IBV_SEND_INLINE = 0 then
    let g5 : Globals := { g4 with send_mr := env.send_mr }
    let t7 := t6 ++ [Event.reg_msgs g5.id Buf.send_msg 16 env.send_mr]
    if env.send_mr = 0 then ⟨t7 ++ out_dereg_recv g5, Outcome.exit (-1)⟩ else
    ⟨t7 ++ (exchange g5 env).trace, (exchange g5 env).outcome⟩
  else ⟨t6 ++ (exchange g4 env).trace, (exchange g4 env).outcome⟩

/-- The function `run` as `main` calls it: once, on the initial globals. -/
def run (env : Env) : Result := runFrom Globals.init env

end Server

/-! ## Predicates on traces and sample environments -/

/-- Boolean form of `Before`. -/
def beforeB {ε : Type} (p q : ε → Bool) : List ε → Bool
  | [] => true
  | e :: es => !q e && (p e || beforeB p q es)

/-- Boolean form of `NeverAfter`. -/
def neverAfterB {ε : Type} (p q : ε → Bool) : List ε → Bool
  | [] => true
  | e :: es => (!p e || es.all (fun x => !q x)) && neverAfterB p q es

namespace Cm

/-- A receive on the 16-byte buffer `recv_msg` posted with success on `id`. -/
def isRecvPosted (id : Nat) : Event → Bool
  | Event.post_recv i Buf.recv_msg len _ ret =>
    decide (i = id) && decide (len = 16) && decide (ret = 0)
  | _ => false

def isConnect (id : Nat) : Event → Bool
  | Event.connect i _ => decide (i = id)
  | _ => false

def isAccept (id : Nat) : Event → Bool
  | Event.accept i _ => decide (i = id)
  | _ => false

/-- A registration of the 16-byte buffer `send_msg` that returned the region `mr`,
not `NULL`. -/
def isSendReg (mr : Nat) : Event → Bool
  | Event.reg_msgs _ Buf.send_msg len m => decide (m = mr) && decide (len = 16) && decide (m ≠ 0)
  | _ => false

/-- A send posted without `IBV_SEND_INLINE` that names the region `mr`. -/
def isSgeSend (mr : Nat) : Event → Bool
  | Event.post_send _ _ _ m flags _ => decide (m = mr) && decide (flags &&& IBV_SEND_INLINE = 0)
  | _ => false

/-- The failures in the trace and the value returned agree: without a failed call
the function returned `0` or is still in a wait loop, with one it returned a value
other than `0`. -/
def Agree (r : Result) : Prop :=
  (r.trace.any failed = false ∧ (r.outcome = Outcome.exit 0 ∨ r.outcome = Outcome.running))
  ∨ (r.trace.any failed = true ∧ ∃ c, c ≠ 0 ∧ r.outcome = Outcome.exit c)

/-- The event, when it is a send, is the one `run` posts with the globals `send_mr = mr`
and `send_flags = flags`: the 16 bytes of `send_msg`. -/
def sendIs (mr flags : Nat) : Event → Bool
  | Event.post_send _ buf len m f _ =>
    decide (buf = Buf.send_msg) && decide (len = 16) && decide (m = mr) && decide (f = flags)
  | _ => true

/-- The same answer with the status of the entry replaced by success. -/
def CompResp.clear (r : CompResp) : CompResp := { r with status := 0 }

end Cm

namespace Client

/-- The environment in which every retrieved completion entry has status success. -/
def clearStatus (env : Env) : Env :=
  { env with send_comp := env.send_comp.map Cm.CompResp.clear,
             recv_comp := env.recv_comp.map Cm.CompResp.clear }

/-- Every call succeeds and the device takes inline sends; `sc` and `rc` are the
answers of the two completion waits. -/
def envInline (sc rc : List Cm.CompResp) : Env :=
  { getaddrinfo := 0, create_ep := 0, id := 5, max_inline_data := 16, mr := 9, send_mr := 0,
    post_recv := 0, connect := 0, post_send := 0, send_comp := sc, recv_comp := rc }

/-- Every call succeeds and the device reports `cap < 16` bytes of inline data. -/
def envSge (cap : Nat) (sc rc : List Cm.CompResp) : Env :=
  { getaddrinfo := 0, create_ep := 0, id := 5, max_inline_data := cap, mr := 9, send_mr := 10,
    post_recv := 0, connect := 0, post_send := 0, send_comp := sc, recv_comp := rc }

end Client

namespace Server

/-- The environment in which every retrieved completion entry has status success. -/
def clearStatus (env : Env) : Env :=
  { env with send_comp := env.send_comp.map Cm.CompResp.clear,
             recv_comp := env.recv_comp.map Cm.CompResp.clear }

/-- Every call succeeds and the device takes inline sends; `rc` and `sc` are the
answers of the two completion waits. -/
def envInline (rc sc : List Cm.CompResp) : Env :=
  { getaddrinfo := 0, create_ep := 0, listen_id := 4, listen := 0, get_request := 0, id := 5,
    query_qp := 0, max_inline_data := 16, mr := 9, send_mr := 0, post_recv := 0, accept := 0,
    recv_comp := rc, post_send := 0, send_comp := sc }

end Server

namespace BasicRecv

/-- The device `mlx5_0` exists and every set-up call succeeds; `rounds` are the
answers given in the receive loop. -/
def envUp (rounds : List Round) : Env :=
  { opts := [Opt.d "mlx5_0"], dev_list := some ["mlx5_0"], context := true, pd := true,
    mr := some 7, cq := true, qp := true, modify_init := 0, modify_rtr := 0, rounds := rounds }

/-- The device `mlx5_0` exists and `ibv_open_device` returns `NULL`. -/
def envOpenFails : Env :=
  { opts := [Opt.d "mlx5_0"], dev_list := some ["mlx5_0"], context := false, pd := false,
    mr := none, cq := false, qp := false, modify_init := 0, modify_rtr := 0, rounds := [] }

/-- Four posts succeed, then the four completions come back in the order 3, 2, 1, 0. -/
def roundReversed : Round :=
  { posts := [0, 0, 0, 0],
    polls := [⟨1, ⟨3, 0⟩⟩, ⟨1, ⟨2, 0⟩⟩, ⟨1, ⟨1, 0⟩⟩, ⟨1, ⟨0, 0⟩⟩] }

/-- A trace cut after each `getchar()`, the last call of a pass of the `while (1)`
loop; the `getchar()` itself is left out, and the last piece is the pass under way. -/
def passes : List Event → List (List Event)
  | [] => [[]]
  | e :: es =>
    if e = Event.getchar then [] :: passes es
    else (e :: (passes es).headD []) :: (passes es).tail

/-- The passes of the receive loop in a trace of `main`: what follows the request for
RTR that returned `0`, cut after each `getchar()`; none when the loop was not
reached. -/
def rounds : List Event → List (List Event)
  | [] => []
  | Event.modify_qp QpState.RTR ret :: es => if ret = 0 then passes es else []
  | _ :: es => rounds es

/-- The slice of `mr_buffer` a scatter entry covers, as offset and end. -/
def Sge.stop (s : Sge) : Nat := s.addr + s.length

end BasicRecv

/-! ## Lemmas on traces -/

theorem before_of_beforeB {ε : Type} (p q : ε → Bool) (tr : List ε)
    (h : beforeB p q tr = true) : Before (fun e => p e = true) (fun e => q e = true) tr := by
  induction tr with
  | nil =>
    intro pre e post he
    cases pre <;> simp at he
  | cons a as ih =>
    intro pre e post he hq
    simp only [beforeB, Bool.and_eq_true, Bool.or_eq_true, Bool.not_eq_true'] at h
    cases pre with
    | nil =>
      simp only [List.nil_append, List.cons.injEq] at he
      obtain ⟨rfl, rfl⟩ := he
      simp [hq] at h
    | cons b bs =>
      simp only [List.cons_append, List.cons.injEq] at he
      obtain ⟨rfl, rfl⟩ := he
      rcases h.2 with hp | hrec
      · exact ⟨a, List.mem_cons_self _ _, hp⟩
      · obtain ⟨x, hx, hpx⟩ := ih hrec bs e post rfl hq
        exact ⟨x, List.mem_cons_of_mem _ hx, hpx⟩

theorem Before.mono {ε : Type} {p p2 q q2 : ε → Prop} {tr : List ε} (h : Before p q tr)
    (hp : ∀ x, p x → p2 x) (hq : ∀ x, q2 x → q x) : Before p2 q2 tr := by
  intro pre e post he hqe
  obtain ⟨x, hx, hpx⟩ := h pre e post he (hq e hqe)
  exact ⟨x, hx, hp x hpx⟩

theorem neverAfter_of_neverAfterB {ε : Type} (p q : ε → Bool) (tr : List ε)
    (h : neverAfterB p q tr = true) :
    NeverAfter (fun e => p e = true) (fun e => q e = true) tr := by
  induction tr with
  | nil =>
    intro pre e post he
    cases pre <;> simp at he
  | cons a as ih =>
    intro pre e post he hp
    simp only [neverAfterB, Bool.and_eq_true, Bool.or_eq_true, Bool.not_eq_true',
      List.all_eq_true] at h
    cases pre with
    | nil =>
      simp only [List.nil_append, List.cons.injEq] at he
      obtain ⟨rfl, rfl⟩ := he
      intro x hx
      rcases h.1 with h1 | h1
      · simp [hp] at h1
      · simpa using h1 x hx
    | cons b bs =>
      simp only [List.cons_append, List.cons.injEq] at he
      obtain ⟨rfl, rfl⟩ := he
      exact ih h.2 bs e post rfl hp

theorem neverAfterB_append {ε : Type} (p q : ε → Bool) (a b : List ε) :
    neverAfterB p q (a ++ b)
      = (neverAfterB p q a && (!a.any p || b.all (fun x => !q x)) && neverAfterB p q b) := by
  induction a with
  | nil => simp [neverAfterB]
  | cons x xs ih =>
    rw [List.cons_append, neverAfterB, neverAfterB, ih, List.all_append, List.any_cons]
    cases p x <;> cases neverAfterB p q xs <;> cases neverAfterB p q b <;>
      cases List.all xs (fun x => !q x) <;> cases List.all b (fun x => !q x) <;>
      cases List.any xs p <;> rfl

theorem neverAfterB_of_all {ε : Type} (p q : ε → Bool) (l : List ε)
    (h : l.all (fun x => !q x) = true) : neverAfterB p q l = true := by
  induction l with
  | nil => rfl
  | cons a as ih =>
    simp only [List.all_cons, Bool.and_eq_true] at h
    simp [neverAfterB, h.2, ih h.2]

theorem beforeB_of_all {ε : Type} (p q : ε → Bool) (l : List ε)
    (h : l.all (fun x => !q x) = true) : beforeB p q l = true := by
  induction l with
  | nil => rfl
  | cons a as ih =>
    simp only [List.all_cons, Bool.and_eq_true] at h
    simp [beforeB, h.1, ih h.2]

theorem lifo_append_neutral {ε ρ : Type} [DecidableEq ρ] (cr de : ε → Option ρ)
    (a b : List ε) (h : ∀ e, e ∈ a → cr e = none ∧ de e = none) (st : List ρ) :
    lifo cr de st (a ++ b) = lifo cr de st b := by
  induction a with
  | nil => rfl
  | cons x xs ih =>
    have hx := h x (List.mem_cons_self _ _)
    rw [List.cons_append, lifo, hx.1, hx.2]
    exact ih (fun e he => h e (List.mem_cons_of_mem _ he))

theorem lifo_neutral {ε ρ : Type} [DecidableEq ρ] (cr de : ε → Option ρ)
    (a : List ε) (h : ∀ e, e ∈ a → cr e = none ∧ de e = none) (st : List ρ) :
    lifo cr de st a = true := by
  have := lifo_append_neutral cr de a [] h st
  rw [List.append_nil] at this
  rw [this, lifo]

theorem not_mem_of_all_ne {ε : Type} [DecidableEq ε] (a : ε) (l : List ε)
    (h : l.all (fun x => decide (x ≠ a)) = true) : a ∉ l := by
  intro ha
  have := List.all_eq_true.mp h a ha
  simp at this

theorem filterMap_nil_of_all {ε ρ : Type} (f : ε → Option ρ) (l : List ε)
    (h : l.all (fun x => (f x).isNone) = true) : l.filterMap f = [] := by
  induction l with
  | nil => rfl
  | cons a as ih =>
    simp only [List.all_cons, Bool.and_eq_true, Option.isNone_iff_eq_none] at h
    rw [List.filterMap_cons, h.1]
    exact ih h.2

/-! ## Lemmas on the completion waits -/

namespace Cm

theorem waitComp_mem (call : Int → Nat → Event) (rs : List CompResp) (e : Event)
    (h : e ∈ (waitComp call rs).1) :
    ∃ r s, e = call r s ∧ (r = 0 ∨ (waitComp call rs).2 = some r) := by
  induction rs with
  | nil => simp [waitComp] at h
  | cons x xs ih =>
    unfold waitComp at h ⊢
    split at h
    · rename_i hx
      simp only [List.mem_cons] at h
      rcases h with rfl | h
      · exact ⟨x.ret, x.status, rfl, Or.inl hx⟩
      · simp only [hx, if_true]
        exact ih h
    · rename_i hx
      simp only [List.mem_singleton] at h
      subst h
      simp only [hx, if_false]
      exact ⟨x.ret, x.status, rfl, Or.inr rfl⟩

theorem waitComp_some (call : Int → Nat → Event) (rs : List CompResp) (ret : Int)
    (h : (waitComp call rs).2 = some ret) :
    ret ≠ 0 ∧ ∃ s, call ret s ∈ (waitComp call rs).1 := by
  induction rs with
  | nil => simp [waitComp] at h
  | cons x xs ih =>
    unfold waitComp at h ⊢
    split at h
    · rename_i hx
      simp only [hx, if_true]
      obtain ⟨h1, s, hs⟩ := ih h
      exact ⟨h1, s, List.mem_cons_of_mem _ hs⟩
    · rename_i hx
      simp only [Option.some.injEq] at h
      subst h
      simp only [hx, if_false]
      exact ⟨hx, x.status, List.mem_singleton.mpr rfl⟩

theorem waitComp_all (P : Event → Bool) (call : Int → Nat → Event)
    (h : ∀ r s, P (call r s) = true) (rs : List CompResp) :
    (waitComp call rs).1.all P = true := by
  rw [List.all_eq_true]
  intro e he
  obtain ⟨r, s, rfl, _⟩ := waitComp_mem call rs e he
  exact h r s

theorem waitComp_any_failed (call : Int → Nat → Event)
    (hc : ∀ r s, failed (call r s) = decide (r < 0)) (rs : List CompResp) :
    (waitComp call rs).1.any failed
      = match (waitComp call rs).2 with
        | none => false
        | some ret => decide (ret < 0) := by
  induction rs with
  | nil => simp [waitComp]
  | cons x xs ih =>
    unfold waitComp
    by_cases hx : x.ret = 0
    · simp only [hx, if_true, List.any_cons, hc, ih]
      simp
    · simp [hx, hc]

theorem waitComp_neutral (call : Int → Nat → Event)
    (hc : ∀ r s, created (call r s) = none ∧ destroyed (call r s) = none)
    (rs : List CompResp) (e : Event) (h : e ∈ (waitComp call rs).1) :
    created e = none ∧ destroyed e = none := by
  obtain ⟨r, s, rfl, _⟩ := waitComp_mem call rs e h
  exact hc r s

/-- The statuses of the entries do not change what a wait loop returns. -/
theorem waitComp_clear (call : Int → Nat → Event) (rs : List CompResp) :
    (waitComp call (rs.map CompResp.clear)).2 = (waitComp call rs).2 := by
  induction rs with
  | nil => rfl
  | cons x xs ih =>
    simp only [List.map_cons, waitComp, CompResp.clear]
    split <;> simp [ih]

theorem filterMap_destroyed_nil (l : List Event)
    (h : ∀ e, e ∈ l → created e = none ∧ destroyed e = none) :
    l.filterMap destroyed = [] := by
  induction l with
  | nil => rfl
  | cons a as ih =>
    rw [List.filterMap_cons, (h a (List.mem_cons_self _ _)).2]
    exact ih (fun e he => h e (List.mem_cons_of_mem _ he))

end Cm

/-! ## Lemmas on rdma_client.c -/

namespace Client
open Cm

theorem cli_exchange_cases (g : Globals) (env : Env) (P : Result → Prop)
    (h_post_recv : env.post_recv ≠ 0 →
      P ⟨Event.post_recv g.id Buf.recv_msg 16 g.mr env.post_recv :: out_dereg_send g,
        Outcome.exit env.post_recv⟩)
    (h_connect : env.post_recv = 0 → env.connect ≠ 0 →
      P ⟨Event.post_recv g.id Buf.recv_msg 16 g.mr env.post_recv
          :: Event.connect g.id env.connect :: out_dereg_send g, Outcome.exit env.connect⟩)
    (h_post_send : env.post_recv = 0 → env.connect = 0 → env.post_send ≠ 0 →
      P ⟨Event.post_recv g.id Buf.recv_msg 16 g.mr env.post_recv
          :: Event.connect g.id env.connect
          :: Event.post_send g.id Buf.send_msg 16 g.send_mr g.send_flags env.post_send
          :: out_disconnect g, Outcome.exit env.post_send⟩)
    (h_wait_send : env.post_recv = 0 → env.connect = 0 → env.post_send = 0 →
      (waitComp (Event.get_send_comp g.id) env.send_comp).2 = none →
      P ⟨Event.post_recv g.id Buf.recv_msg 16 g.mr env.post_recv
          :: Event.connect g.id env.connect
          :: Event.post_send g.id Buf.send_msg 16 g.send_mr g.send_flags env.post_send
          :: (waitComp (Event.get_send_comp g.id) env.send_comp).1, Outcome.running⟩)
    (h_send_comp : env.post_recv = 0 → env.connect = 0 → env.post_send = 0 →
      ∀ ret, (waitComp (Event.get_send_comp g.id) env.send_comp).2 = some ret → ret < 0 →
      P ⟨Event.post_recv g.id Buf.recv_msg 16 g.mr env.post_recv
          :: Event.connect g.id env.connect
          :: Event.post_send g.id Buf.send_msg 16 g.send_mr g.send_flags env.post_send
          :: ((waitComp (Event.get_send_comp g.id) env.send_comp).1 ++ out_disconnect g),
        Outcome.exit ret⟩)
    (h_wait_recv : env.post_recv = 0 → env.connect = 0 → env.post_send = 0 →
      ∀ ret, (waitComp (Event.get_send_comp g.id) env.send_comp).2 = some ret → ¬ ret < 0 →
      (waitComp (Event.get_recv_comp g.id) env.recv_comp).2 = none →
      P ⟨Event.post_recv g.id Buf.recv_msg 16 g.mr env.post_recv
          :: Event.connect g.id env.connect
          :: Event.post_send g.id Buf.send_msg 16 g.send_mr g.send_flags env.post_send
          :: ((waitComp (Event.get_send_comp g.id) env.send_comp).1
              ++ (waitComp (Event.get_recv_comp g.id) env.recv_comp).1), Outcome.running⟩)
    (h_done : env.post_recv = 0 → env.connect = 0 → env.post_send = 0 →
      ∀ ret, (waitComp (Event.get_send_comp g.id) env.send_comp).2 = some ret → ¬ ret < 0 →
      ∀ ret2, (waitComp (Event.get_recv_comp g.id) env.recv_comp).2 = some ret2 →
      P ⟨Event.post_recv g.id Buf.recv_msg 16 g.mr env.post_recv
          :: Event.connect g.id env.connect
          :: Event.post_send g.id Buf.send_msg 16 g.send_mr g.send_flags env.post_send
          :: ((waitComp (Event.get_send_comp g.id) env.send_comp).1
              ++ ((waitComp (Event.get_recv_comp g.id) env.recv_comp).1 ++ out_disconnect g)),
        Outcome.exit (if ret2 < 0 then ret2 else 0)⟩) :
    P (exchange g env) := by
  unfold exchange
  by_cases h1 : env.post_recv = 0
  swap
  · simpa [h1] using h_post_recv h1
  by_cases h2 : env.connect = 0
  swap
  · simpa [h1, h2] using h_connect h1 h2
  by_cases h3 : env.post_send = 0
  swap
  · simpa [h1, h2, h3] using h_post_send h1 h2 h3
  simp only [h1, h2, h3, ne_eq, not_true_eq_false, if_false]
  split
  · rename_i hw
    simpa [h1, h2, h3] using h_wait_send h1 h2 h3 hw
  · rename_i ret hw
    by_cases h4 : ret < 0
    · simpa [h1, h2, h3, h4] using h_send_comp h1 h2 h3 ret hw h4
    · simp only [h4, if_false]
      split
      · rename_i hw2
        simpa [h1, h2, h3] using h_wait_recv h1 h2 h3 ret hw h4 hw2
      · rename_i ret2 hw2
        simpa [h1, h2, h3] using h_done h1 h2 h3 ret hw h4 ret2 hw2

theorem cli_run_cases (env : Env) (P : Result → Prop)
    (h_getaddrinfo : env.getaddrinfo ≠ 0 →
      P ⟨[Event.getaddrinfo env.getaddrinfo], Outcome.exit env.getaddrinfo⟩)
    (h_create_ep : env.getaddrinfo = 0 → env.create_ep ≠ 0 →
      P ⟨Event.getaddrinfo env.getaddrinfo :: Event.create_ep env.create_ep env.id
          :: out_free_addrinfo, Outcome.exit env.create_ep⟩)
    (h_reg_recv : env.getaddrinfo = 0 → env.create_ep = 0 → env.mr = 0 →
      ∀ sm sf, P ⟨Event.getaddrinfo env.getaddrinfo :: Event.create_ep env.create_ep env.id
          :: Event.reg_msgs env.id Buf.recv_msg 16 env.mr
          :: out_destroy_ep ⟨env.id, env.mr, sm, sf⟩, Outcome.exit (-1)⟩)
    (h_reg_send : env.getaddrinfo = 0 → env.create_ep = 0 → env.mr ≠ 0 →
      env.max_inline_data < 16 → env.send_mr = 0 →
      P ⟨Event.getaddrinfo env.getaddrinfo :: Event.create_ep env.create_ep env.id
          :: Event.reg_msgs env.id Buf.recv_msg 16 env.mr
          :: Event.reg_msgs env.id Buf.send_msg 16 env.send_mr
          :: out_dereg_recv ⟨env.id, env.mr, env.send_mr, 0⟩, Outcome.exit (-1)⟩)
    (h_sge : env.getaddrinfo = 0 → env.create_ep = 0 → env.mr ≠ 0 →
      env.max_inline_data < 16 → env.send_mr ≠ 0 →
      P ⟨Event.getaddrinfo env.getaddrinfo :: Event.create_ep env.create_ep env.id
          :: Event.reg_msgs env.id Buf.recv_msg 16 env.mr
          :: Event.reg_msgs env.id Buf.send_msg 16 env.send_mr
          :: (exchange ⟨env.id, env.mr, env.send_mr, 0⟩ env).trace,
        (exchange ⟨env.id, env.mr, env.send_mr, 0⟩ env).outcome⟩)
    (h_inline : env.getaddrinfo = 0 → env.create_ep = 0 → env.mr ≠ 0 →
      16 ≤ env.max_inline_data →
      P ⟨Event.getaddrinfo env.getaddrinfo :: Event.create_ep env.create_ep env.id
          :: Event.reg_msgs env.id Buf.recv_msg 16 env.mr
          :: (exchange ⟨env.id, env.mr, 0, IBV_SEND_INLINE⟩ env).trace,
        (exchange ⟨env.id, env.mr, 0, IBV_SEND_INLINE⟩ env).outcome⟩) :
    P (run env) := by
  unfold run runFrom
  by_cases h1 : env.getaddrinfo = 0
  swap
  · simpa [h1] using h_getaddrinfo h1
  by_cases h2 : env.create_ep = 0
  swap
  · simpa [h1, h2] using h_create_ep h1 h2
  by_cases h3 : env.mr = 0
  · simpa [h1, h2, h3] using h_reg_recv h1 h2 h3 _ _
  by_cases h4 : 16 ≤ env.max_inline_data
  · have := h_inline h1 h2 h3 h4
    simpa [h1, h2, h3, h4, IBV_SEND_INLINE, Globals.init] using this
  · have h4' : env.max_inline_data < 16 := Nat.lt_of_not_le h4
    by_cases h5 : env.send_mr = 0
    · simpa [h1, h2, h3, h4, h5, IBV_SEND_INLINE, Globals.init] using h_reg_send h1 h2 h3 h4' h5
    · simpa [h1, h2, h3, h4, h5, IBV_SEND_INLINE, Globals.init] using h_sge h1 h2 h3 h4' h5

/-- A predicate that holds of every clean-up call holds on every clean-up chain. -/
theorem cli_all_out_disconnect (P : Event → Bool) (g : Globals)
    (h1 : ∀ i, P (Event.disconnect i) = true) (h2 : ∀ m, P (Event.dereg_mr m) = true)
    (h3 : ∀ i, P (Event.destroy_ep i) = true) (h4 : P Event.freeaddrinfo = true) :
    (out_disconnect g).all P = true := by
  unfold out_disconnect out_dereg_send out_dereg_recv out_destroy_ep out_free_addrinfo
  split_ifs <;> simp [h1, h2, h3, h4]

theorem cli_all_out_dereg_send (P : Event → Bool) (g : Globals)
    (h2 : ∀ m, P (Event.dereg_mr m) = true)
    (h3 : ∀ i, P (Event.destroy_ep i) = true) (h4 : P Event.freeaddrinfo = true) :
    (out_dereg_send g).all P = true := by
  unfold out_dereg_send out_dereg_recv out_destroy_ep out_free_addrinfo
  split_ifs <;> simp [h2, h3, h4]

theorem cli_any_failed_out_disconnect (g : Globals) : (out_disconnect g).any failed = false := by
  unfold out_disconnect out_dereg_send out_dereg_recv out_destroy_ep out_free_addrinfo
  split_ifs <;> simp [failed]

theorem cli_any_failed_out_dereg_send (g : Globals) : (out_dereg_send g).any failed = false := by
  unfold out_dereg_send out_dereg_recv out_destroy_ep out_free_addrinfo
  split_ifs <;> simp [failed]

theorem cli_exchange_agree (g : Globals) (env : Env) : Agree (exchange g env) := by
  apply cli_exchange_cases g env
  · intro h1
    right
    simp [failed, h1, cli_any_failed_out_dereg_send]
  · intro h1 h2
    right
    simp [failed, h1, h2]
  · intro h1 h2 h3
    right
    simp [failed, h1, h2, h3]
  · intro h1 h2 h3 hw
    left
    simp [failed, h1, h2, h3, waitComp_any_failed, hw]
  · intro h1 h2 h3 ret hw hret
    right
    simp [failed, h1, h2, h3, waitComp_any_failed, hw, hret]
    omega
  · intro h1 h2 h3 ret hw hret hw2
    left
    simp [failed, h1, h2, h3, waitComp_any_failed, hw, hret, hw2]
  · intro h1 h2 h3 ret hw hret ret2 hw2
    by_cases h5 : ret2 < 0
    · right
      simp [failed, h1, h2, h3, waitComp_any_failed, hw, hret, hw2, h5]
      omega
    · left
      simp [failed, h1, h2, h3, waitComp_any_failed, hw, hret, hw2, h5, cli_any_failed_out_disconnect]

theorem cli_run_agree (env : Env) : Agree (run env) := by
  apply cli_run_cases env
  · intro h1
    right
    simp [failed, h1]
  · intro h1 h2
    right
    simp [failed, h1, h2]
  · intro h1 h2 h3 sm sf
    right
    simp [failed, h1, h2, h3]
  · intro h1 h2 h3 h4 h5
    right
    simp [failed, h1, h2, h3, h5]
  · intro h1 h2 h3 h4 h5
    have := cli_exchange_agree ⟨env.id, env.mr, env.send_mr, 0⟩ env
    simpa [Agree, failed, h1, h2, h3, h5] using this
  · intro h1 h2 h3 h4
    have := cli_exchange_agree ⟨env.id, env.mr, 0, IBV_SEND_INLINE⟩ env
    simpa [Agree, failed, h1, h2, h3] using this

theorem cli_exchange_neverAfter (g : Globals) (env : Env) :
    neverAfterB failed isAction (exchange g env).trace = true := by
  have A1 := cli_all_out_dereg_send (fun x => !isAction x) g (fun _ => rfl) (fun _ => rfl) rfl
  have A2 := cli_all_out_disconnect (fun x => !isAction x) g (fun _ => rfl) (fun _ => rfl)
    (fun _ => rfl) rfl
  have W1 := waitComp_all (fun x => !isAction x) (Event.get_send_comp g.id)
    (fun _ _ => rfl) env.send_comp
  have W2 := waitComp_all (fun x => !isAction x) (Event.get_recv_comp g.id)
    (fun _ _ => rfl) env.recv_comp
  apply cli_exchange_cases g env (fun r => neverAfterB failed isAction r.trace = true) <;>
    intros <;>
    simp_all [neverAfterB, neverAfterB_append, neverAfterB_of_all, failed, isAction]

theorem cli_run_neverAfter (env : Env) : neverAfterB failed isAction (run env).trace = true := by
  apply cli_run_cases env (fun r => neverAfterB failed isAction r.trace = true) <;> intros <;>
    simp [neverAfterB, cli_exchange_neverAfter, failed, isAction, out_free_addrinfo,
      out_destroy_ep, out_dereg_recv, *]

theorem cli_exchange_before (g : Globals) (env : Env) (id : Nat) :
    beforeB (isRecvPosted id) (isConnect id) (exchange g env).trace = true := by
  have A1 := cli_all_out_dereg_send (fun x => !isConnect id x) g (fun _ => rfl) (fun _ => rfl) rfl
  have A2 := cli_all_out_disconnect (fun x => !isConnect id x) g (fun _ => rfl) (fun _ => rfl)
    (fun _ => rfl) rfl
  have W1 := waitComp_all (fun x => !isConnect id x) (Event.get_send_comp g.id)
    (fun _ _ => rfl) env.send_comp
  have W2 := waitComp_all (fun x => !isConnect id x) (Event.get_recv_comp g.id)
    (fun _ _ => rfl) env.recv_comp
  by_cases hid : g.id = id
  · apply cli_exchange_cases g env
      (fun r => beforeB (isRecvPosted id) (isConnect id) r.trace = true) <;> intros <;>
      simp_all [beforeB, beforeB_of_all, isRecvPosted, isConnect]
  · apply cli_exchange_cases g env
      (fun r => beforeB (isRecvPosted id) (isConnect id) r.trace = true) <;> intros <;>
      simp_all [beforeB, beforeB_of_all, isRecvPosted, isConnect]

theorem cli_run_before (env : Env) (id : Nat) :
    beforeB (isRecvPosted id) (isConnect id) (run env).trace = true := by
  apply cli_run_cases env (fun r => beforeB (isRecvPosted id) (isConnect id) r.trace = true) <;>
    intros <;>
    simp [beforeB, cli_exchange_before, isRecvPosted, isConnect, out_free_addrinfo,
      out_destroy_ep, out_dereg_recv, *]

theorem cli_exchange_lifo (g : Globals) (env : Env) (st : List Res)
    (h : lifo created destroyed st (out_dereg_send g) = true) :
    lifo created destroyed st (exchange g env).trace = true := by
  have hd : lifo created destroyed st (out_disconnect g) = true := by
    rw [out_disconnect, lifo]
    exact h
  have n1 := waitComp_neutral (Event.get_send_comp g.id) (fun _ _ => ⟨rfl, rfl⟩) env.send_comp
  have n2 := waitComp_neutral (Event.get_recv_comp g.id) (fun _ _ => ⟨rfl, rfl⟩) env.recv_comp
  apply cli_exchange_cases g env (fun r => lifo created destroyed st r.trace = true) <;> intros <;>
    simp only [lifo, created, destroyed]
  · exact h
  · exact h
  · exact hd
  · exact lifo_neutral _ _ _ n1 st
  · rw [lifo_append_neutral _ _ _ _ n1]
    exact hd
  · rw [lifo_append_neutral _ _ _ _ n1]
    exact lifo_neutral _ _ _ n2 st
  · rw [lifo_append_neutral _ _ _ _ n1, lifo_append_neutral _ _ _ _ n2]
    exact hd

theorem cli_run_lifo (env : Env) : lifo created destroyed [] (run env).trace = true := by
  apply cli_run_cases env (fun r => lifo created destroyed [] r.trace = true)
  · intro h1
    simp [lifo, created, destroyed, h1]
  · intro h1 h2
    simp [lifo, created, destroyed, h1, h2, out_free_addrinfo]
  · intro h1 h2 h3 sm sf
    simp [lifo, created, destroyed, h1, h2, h3, out_free_addrinfo, out_destroy_ep]
  · intro h1 h2 h3 h4 h5
    simp [lifo, created, destroyed, h1, h2, h3, h5, out_free_addrinfo, out_destroy_ep,
      out_dereg_recv]
  · intro h1 h2 h3 h4 h5
    simp only [lifo, created, destroyed, h1, h2, h3, h5, if_true, if_false]
    apply cli_exchange_lifo
    simp [lifo, created, destroyed, out_free_addrinfo, out_destroy_ep, out_dereg_recv,
      out_dereg_send]
  · intro h1 h2 h3 h4
    simp only [lifo, created, destroyed, h1, h2, h3, if_true, if_false]
    apply cli_exchange_lifo
    simp [lifo, created, destroyed, out_free_addrinfo, out_destroy_ep, out_dereg_recv,
      out_dereg_send, IBV_SEND_INLINE]

theorem cli_clearStatus_proj (env : Env) :
    (clearStatus env).getaddrinfo = env.getaddrinfo
    ∧ (clearStatus env).create_ep = env.create_ep
    ∧ (clearStatus env).id = env.id
    ∧ (clearStatus env).max_inline_data = env.max_inline_data
    ∧ (clearStatus env).mr = env.mr
    ∧ (clearStatus env).send_mr = env.send_mr
    ∧ (clearStatus env).post_recv = env.post_recv
    ∧ (clearStatus env).connect = env.connect
    ∧ (clearStatus env).post_send = env.post_send
    ∧ (clearStatus env).send_comp = env.send_comp.map CompResp.clear
    ∧ (clearStatus env).recv_comp = env.recv_comp.map CompResp.clear :=
  ⟨rfl, rfl, rfl, rfl, rfl, rfl, rfl, rfl, rfl, rfl, rfl⟩

theorem cli_exchange_outcome_clear (g : Globals) (env : Env) :
    (exchange g (clearStatus env)).outcome = (exchange g env).outcome := by
  apply cli_exchange_cases g env (fun r => (exchange g (clearStatus env)).outcome = r.outcome) <;>
    intros <;> simp [exchange, cli_clearStatus_proj, waitComp_clear, *]

theorem cli_run_outcome_clear (env : Env) :
    (run (clearStatus env)).outcome = (run env).outcome := by
  apply cli_run_cases env (fun r => (run (clearStatus env)).outcome = r.outcome)
  · intro h1
    simp [run, runFrom, cli_clearStatus_proj, h1]
  · intro h1 h2
    simp [run, runFrom, cli_clearStatus_proj, h1, h2]
  · intro h1 h2 h3 sm sf
    simp [run, runFrom, cli_clearStatus_proj, h1, h2, h3]
  · intro h1 h2 h3 h4 h5
    simp [run, runFrom, cli_clearStatus_proj, h1, h2, h3, h5, Nat.not_le.mpr h4, Globals.init]
  · intro h1 h2 h3 h4 h5
    simp [run, runFrom, cli_clearStatus_proj, h1, h2, h3, h5, Nat.not_le.mpr h4, Globals.init,
      cli_exchange_outcome_clear]
  · intro h1 h2 h3 h4
    simp [run, runFrom, cli_clearStatus_proj, h1, h2, h3, h4, Globals.init, IBV_SEND_INLINE,
      cli_exchange_outcome_clear]

theorem cli_exchange_sendIs (g : Globals) (env : Env) :
    (exchange g env).trace.all (sendIs g.send_mr g.send_flags) = true := by
  have A1 := cli_all_out_dereg_send (sendIs g.send_mr g.send_flags) g (fun _ => rfl) (fun _ => rfl)
    rfl
  have A2 := cli_all_out_disconnect (sendIs g.send_mr g.send_flags) g (fun _ => rfl) (fun _ => rfl)
    (fun _ => rfl) rfl
  have W1 := waitComp_all (sendIs g.send_mr g.send_flags) (Event.get_send_comp g.id)
    (fun _ _ => rfl) env.send_comp
  have W2 := waitComp_all (sendIs g.send_mr g.send_flags) (Event.get_recv_comp g.id)
    (fun _ _ => rfl) env.recv_comp
  apply cli_exchange_cases g env
    (fun r => r.trace.all (sendIs g.send_mr g.send_flags) = true) <;> intros <;>
    simp_all [sendIs]

theorem cli_run_sendIs (env : Env) :
    (run env).trace.all
      (sendIs (if 16 ≤ env.max_inline_data then 0 else env.send_mr)
        (if 16 ≤ env.max_inline_data then IBV_SEND_INLINE else 0)) = true := by
  apply cli_run_cases env (fun r => r.trace.all
      (sendIs (if 16 ≤ env.max_inline_data then 0 else env.send_mr)
        (if 16 ≤ env.max_inline_data then IBV_SEND_INLINE else 0)) = true)
  · intro h1
    simp [sendIs]
  · intro h1 h2
    simp [sendIs, out_free_addrinfo]
  · intro h1 h2 h3 sm sf
    simp [sendIs, out_free_addrinfo, out_destroy_ep]
  · intro h1 h2 h3 h4 h5
    simp [sendIs, out_free_addrinfo, out_destroy_ep, out_dereg_recv]
  · intro h1 h2 h3 h4 h5
    have := cli_exchange_sendIs ⟨env.id, env.mr, env.send_mr, 0⟩ env
    simp only [Nat.not_le.mpr h4, if_false]
    simpa [sendIs] using this
  · intro h1 h2 h3 h4
    have := cli_exchange_sendIs ⟨env.id, env.mr, 0, IBV_SEND_INLINE⟩ env
    simp only [h4, if_true]
    simpa [sendIs] using this

theorem cli_exchange_no_sge (g : Globals) (env : Env) (mr : Nat)
    (h : g.send_mr ≠ mr ∨ g.send_flags &&& IBV_SEND_INLINE ≠ 0) :
    (exchange g env).trace.all (fun x => !isSgeSend mr x) = true := by
  have hs := cli_exchange_sendIs g env
  rw [List.all_eq_true] at hs ⊢
  intro e he
  have := hs e he
  cases e <;> simp_all [sendIs, isSgeSend]

theorem cli_run_before_sge (env : Env) (mr : Nat) :
    beforeB (isSendReg mr) (isSgeSend mr) (run env).trace = true := by
  apply cli_run_cases env (fun r => beforeB (isSendReg mr) (isSgeSend mr) r.trace = true)
  · intro h1
    simp [beforeB, isSendReg, isSgeSend]
  · intro h1 h2
    simp [beforeB, isSendReg, isSgeSend, out_free_addrinfo]
  · intro h1 h2 h3 sm sf
    simp [beforeB, isSendReg, isSgeSend, out_free_addrinfo, out_destroy_ep]
  · intro h1 h2 h3 h4 h5
    simp [beforeB, isSendReg, isSgeSend, out_free_addrinfo, out_destroy_ep, out_dereg_recv]
  · intro h1 h2 h3 h4 h5
    by_cases hm : env.send_mr = mr
    · subst hm
      simp [beforeB, isSendReg, isSgeSend, h5]
    · have := beforeB_of_all (isSendReg mr) (isSgeSend mr) _
        (cli_exchange_no_sge ⟨env.id, env.mr, env.send_mr, 0⟩ env mr (Or.inl hm))
      simp [beforeB, isSendReg, isSgeSend, hm, this]
  · intro h1 h2 h3 h4
    have hq : (⟨env.id, env.mr, 0, IBV_SEND_INLINE⟩ : Globals).send_flags
        &&& IBV_SEND_INLINE ≠ 0 := by
      show IBV_SEND_INLINE &&& IBV_SEND_INLINE ≠ 0
      decide
    have := beforeB_of_all (isSendReg mr) (isSgeSend mr) _
      (cli_exchange_no_sge ⟨env.id, env.mr, 0, IBV_SEND_INLINE⟩ env mr (Or.inr hq))
    simp [beforeB, isSendReg, isSgeSend, this]

theorem cli_exchange_positive (g : Globals) (env : Env)
    (h : (exchange g env).outcome = Outcome.exit 0) :
    (∃ r s, 0 < r ∧ Event.get_send_comp g.id r s ∈ (exchange g env).trace)
    ∧ (∃ r s, 0 < r ∧ Event.get_recv_comp g.id r s ∈ (exchange g env).trace) := by
  revert h
  apply cli_exchange_cases g env (fun r => r.outcome = Outcome.exit 0 →
    (∃ r1 s, 0 < r1 ∧ Event.get_send_comp g.id r1 s ∈ r.trace)
    ∧ (∃ r2 s, 0 < r2 ∧ Event.get_recv_comp g.id r2 s ∈ r.trace))
  · intro h1 h
    simp at h
    exact absurd h h1
  · intro h1 h2 h
    simp at h
    exact absurd h h2
  · intro h1 h2 h3 h
    simp at h
    exact absurd h h3
  · intro h1 h2 h3 hw h
    simp at h
  · intro h1 h2 h3 ret hw hret h
    simp at h
    omega
  · intro h1 h2 h3 ret hw hret hw2 h
    simp at h
  · intro h1 h2 h3 ret hw hret ret2 hw2 h
    obtain ⟨hr, s, hs⟩ := waitComp_some _ _ _ hw
    obtain ⟨hr2, s2, hs2⟩ := waitComp_some _ _ _ hw2
    have h5 : ¬ ret2 < 0 := by
      intro h5
      simp [h5] at h
      exact hr2 h
    refine ⟨⟨ret, s, by omega, ?_⟩, ⟨ret2, s2, by omega, ?_⟩⟩
    · simp [hs]
    · simp [hs2]

theorem cli_run_positive (env : Env) (h : (run env).outcome = Outcome.exit 0) :
    (∃ r s, 0 < r ∧ Event.get_send_comp env.id r s ∈ (run env).trace)
    ∧ (∃ r s, 0 < r ∧ Event.get_recv_comp env.id r s ∈ (run env).trace) := by
  revert h
  apply cli_run_cases env (fun r => r.outcome = Outcome.exit 0 →
    (∃ r1 s, 0 < r1 ∧ Event.get_send_comp env.id r1 s ∈ r.trace)
    ∧ (∃ r2 s, 0 < r2 ∧ Event.get_recv_comp env.id r2 s ∈ r.trace))
  · intro h1 h
    simp at h
    exact absurd h h1
  · intro h1 h2 h
    simp at h
    exact absurd h h2
  · intro h1 h2 h3 sm sf h
    simp at h
  · intro h1 h2 h3 h4 h5 h
    simp at h
  · intro h1 h2 h3 h4 h5 h
    obtain ⟨⟨r, s, hr, hm⟩, ⟨r2, s2, hr2, hm2⟩⟩ := cli_exchange_positive _ env h
    exact ⟨⟨r, s, hr, by simp [hm]⟩, ⟨r2, s2, hr2, by simp [hm2]⟩⟩
  · intro h1 h2 h3 h4 h
    obtain ⟨⟨r, s, hr, hm⟩, ⟨r2, s2, hr2, hm2⟩⟩ := cli_exchange_positive _ env h
    exact ⟨⟨r, s, hr, by simp [hm]⟩, ⟨r2, s2, hr2, by simp [hm2]⟩⟩

theorem cli_exchange_destroyed (g : Globals) (env : Env) :
    (exchange g env).trace.filterMap destroyed = []
    ∨ (exchange g env).trace.filterMap destroyed = (out_dereg_send g).filterMap destroyed := by
  have n1 := filterMap_destroyed_nil _
    (waitComp_neutral (Event.get_send_comp g.id) (fun _ _ => ⟨rfl, rfl⟩) env.send_comp)
  have n2 := filterMap_destroyed_nil _
    (waitComp_neutral (Event.get_recv_comp g.id) (fun _ _ => ⟨rfl, rfl⟩) env.recv_comp)
  apply cli_exchange_cases g env (fun r => r.trace.filterMap destroyed = []
    ∨ r.trace.filterMap destroyed = (out_dereg_send g).filterMap destroyed) <;> intros <;>
    simp [List.filterMap_cons, List.filterMap_append, destroyed, n1, n2, out_disconnect]

theorem cli_run_destroyed (env : Env) :
    (run env).trace.filterMap destroyed
      <:+ [Res.mr env.send_mr, Res.mr env.mr, Res.ep env.id, Res.addrinfo] := by
  apply cli_run_cases env (fun r => r.trace.filterMap destroyed
      <:+ [Res.mr env.send_mr, Res.mr env.mr, Res.ep env.id, Res.addrinfo])
  · intro h1
    exact ⟨_, List.append_nil _⟩
  · intro h1 h2
    exact ⟨[Res.mr env.send_mr, Res.mr env.mr, Res.ep env.id], rfl⟩
  · intro h1 h2 h3 sm sf
    exact ⟨[Res.mr env.send_mr, Res.mr env.mr], rfl⟩
  · intro h1 h2 h3 h4 h5
    exact ⟨[Res.mr env.send_mr], rfl⟩
  · intro h1 h2 h3 h4 h5
    rcases cli_exchange_destroyed ⟨env.id, env.mr, env.send_mr, 0⟩ env with h | h
    · simp only [List.filterMap_cons, destroyed, h]
      exact ⟨_, List.append_nil _⟩
    · simp only [List.filterMap_cons, destroyed, h]
      exact ⟨[], by
        simp [out_dereg_send, out_dereg_recv, out_destroy_ep, out_free_addrinfo, destroyed,
          IBV_SEND_INLINE]⟩
  · intro h1 h2 h3 h4
    rcases cli_exchange_destroyed ⟨env.id, env.mr, 0, IBV_SEND_INLINE⟩ env with h | h
    · simp only [List.filterMap_cons, destroyed, h]
      exact ⟨_, List.append_nil _⟩
    · simp only [List.filterMap_cons, destroyed, h]
      exact ⟨[Res.mr env.send_mr], by
        simp [out_dereg_send, out_dereg_recv, out_destroy_ep, out_free_addrinfo, destroyed,
          IBV_SEND_INLINE]⟩

end Client

/-! ## Lemmas on rdma_server.c -/

namespace Server
open Cm

theorem srv_exchange_cases (g : Globals) (env : Env) (P : Result → Prop)
    (h_post_recv : env.post_recv ≠ 0 →
      P ⟨Event.post_recv g.id Buf.recv_msg 16 g.mr env.post_recv :: out_dereg_send g,
        Outcome.exit env.post_recv⟩)
    (h_accept : env.post_recv = 0 → env.accept ≠ 0 →
      P ⟨Event.post_recv g.id Buf.recv_msg 16 g.mr env.post_recv
          :: Event.accept g.id env.accept :: out_dereg_send g, Outcome.exit env.accept⟩)
    (h_wait_recv : env.post_recv = 0 → env.accept = 0 →
      (waitComp (Event.get_recv_comp g.id) env.recv_comp).2 = none →
      P ⟨Event.post_recv g.id Buf.recv_msg 16 g.mr env.post_recv
          :: Event.accept g.id env.accept
          :: (waitComp (Event.get_recv_comp g.id) env.recv_comp).1, Outcome.running⟩)
    (h_recv_comp : env.post_recv = 0 → env.accept = 0 →
      ∀ ret, (waitComp (Event.get_recv_comp g.id) env.recv_comp).2 = some ret → ret < 0 →
      P ⟨Event.post_recv g.id Buf.recv_msg 16 g.mr env.post_recv
          :: Event.accept g.id env.accept
          :: ((waitComp (Event.get_recv_comp g.id) env.recv_comp).1 ++ out_disconnect g),
        Outcome.exit ret⟩)
    (h_post_send : env.post_recv = 0 → env.accept = 0 →
      ∀ ret, (waitComp (Event.get_recv_comp g.id) env.recv_comp).2 = some ret → ¬ ret < 0 →
      env.post_send ≠ 0 →
      P ⟨Event.post_recv g.id Buf.recv_msg 16 g.mr env.post_recv
          :: Event.accept g.id env.accept
          :: ((waitComp (Event.get_recv_comp g.id) env.recv_comp).1
              ++ Event.post_send g.id Buf.send_msg 16 g.send_mr g.send_flags env.post_send
              :: out_disconnect g),
        Outcome.exit env.post_send⟩)
    (h_wait_send : env.post_recv = 0 → env.accept = 0 →
      ∀ ret, (waitComp (Event.get_recv_comp g.id) env.recv_comp).2 = some ret → ¬ ret < 0 →
      env.post_send = 0 →
      (waitComp (Event.get_send_comp g.id) env.send_comp).2 = none →
      P ⟨Event.post_recv g.id Buf.recv_msg 16 g.mr env.post_recv
          :: Event.accept g.id env.accept
          :: ((waitComp (Event.get_recv_comp g.id) env.recv_comp).1
              ++ Event.post_send g.id Buf.send_msg 16 g.send_mr g.send_flags env.post_send
              :: (waitComp (Event.get_send_comp g.id) env.send_comp).1), Outcome.running⟩)
    (h_done : env.post_recv = 0 → env.accept = 0 →
      ∀ ret, (waitComp (Event.get_recv_comp g.id) env.recv_comp).2 = some ret → ¬ ret < 0 →
      env.post_send = 0 →
      ∀ ret2, (waitComp (Event.get_send_comp g.id) env.send_comp).2 = some ret2 →
      P ⟨Event.post_recv g.id Buf.recv_msg 16 g.mr env.post_recv
          :: Event.accept g.id env.accept
          :: ((waitComp (Event.get_recv_comp g.id) env.recv_comp).1
              ++ Event.post_send g.id Buf.send_msg 16 g.send_mr g.send_flags env.post_send
              :: ((waitComp (Event.get_send_comp g.id) env.send_comp).1 ++ out_disconnect g)),
        Outcome.exit (if ret2 < 0 then ret2 else 0)⟩) :
    P (exchange g env) := by
  unfold exchange
  by_cases h1 : env.post_recv = 0
  swap
  · simpa [h1] using h_post_recv h1
  by_cases h2 : env.accept = 0
  swap
  · simpa [h1, h2] using h_accept h1 h2
  simp only [h1, h2, ne_eq, not_true_eq_false, if_false]
  split
  · rename_i hw
    simpa [h1, h2] using h_wait_recv h1 h2 hw
  · rename_i ret hw
    by_cases h4 : ret < 0
    · simpa [h1, h2, h4] using h_recv_comp h1 h2 ret hw h4
    · simp only [h4, if_false]
      by_cases h3 : env.post_send = 0
      swap
      · simpa [h1, h2, h3] using h_post_send h1 h2 ret hw h4 h3
      simp only [h3, not_true_eq_false, if_false]
      split
      · rename_i hw2
        simpa [h1, h2, h3] using h_wait_send h1 h2 ret hw h4 h3 hw2
      · rename_i ret2 hw2
        simpa [h1, h2, h3] using h_done h1 h2 ret hw h4 h3 ret2 hw2

theorem srv_run_cases (env : Env) (P : Result → Prop)
    (h_getaddrinfo : env.getaddrinfo ≠ 0 →
      P ⟨[Event.getaddrinfo env.getaddrinfo], Outcome.exit env.getaddrinfo⟩)
    (h_create_ep : env.getaddrinfo = 0 → env.create_ep ≠ 0 →
      P ⟨Event.getaddrinfo env.getaddrinfo :: Event.create_ep env.create_ep env.listen_id
          :: out_free_addrinfo, Outcome.exit env.create_ep⟩)
    (h_listen : env.getaddrinfo = 0 → env.create_ep = 0 → env.listen ≠ 0 →
      ∀ i m sm sf, P ⟨Event.getaddrinfo env.getaddrinfo
          :: Event.create_ep env.create_ep env.listen_id
          :: Event.listen env.listen_id env.listen
          :: out_destroy_listen_ep ⟨env.listen_id, i, m, sm, sf⟩, Outcome.exit env.listen⟩)
    (h_get_request : env.getaddrinfo = 0 → env.create_ep = 0 → env.listen = 0 →
      env.get_request ≠ 0 →
      ∀ i m sm sf, P ⟨Event.getaddrinfo env.getaddrinfo
          :: Event.create_ep env.create_ep env.listen_id
          :: Event.listen env.listen_id env.listen
          :: Event.get_request env.listen_id env.get_request env.id
          :: out_destroy_listen_ep ⟨env.listen_id, i, m, sm, sf⟩,
        Outcome.exit env.get_request⟩)
    (h_query_qp : env.getaddrinfo = 0 → env.create_ep = 0 → env.listen = 0 →
      env.get_request = 0 → env.query_qp ≠ 0 →
      ∀ m sm sf, P ⟨Event.getaddrinfo env.getaddrinfo
          :: Event.create_ep env.create_ep env.listen_id
          :: Event.listen env.listen_id env.listen
          :: Event.get_request env.listen_id env.get_request env.id
          :: Event.query_qp env.id env.query_qp
          :: out_destroy_accept_ep ⟨env.listen_id, env.id, m, sm, sf⟩,
        Outcome.exit env.query_qp⟩)
    (h_reg_recv : env.getaddrinfo = 0 → env.create_ep = 0 → env.listen = 0 →
      env.get_request = 0 → env.query_qp = 0 → env.mr = 0 →
      ∀ sm sf, P ⟨Event.getaddrinfo env.getaddrinfo
          :: Event.create_ep env.create_ep env.listen_id
          :: Event.listen env.listen_id env.listen
          :: Event.get_request env.listen_id env.get_request env.id
          :: Event.query_qp env.id env.query_qp
          :: Event.reg_msgs env.id Buf.recv_msg 16 env.mr
          :: out_destroy_accept_ep ⟨env.listen_id, env.id, env.mr, sm, sf⟩,
        Outcome.exit (-1)⟩)
    (h_reg_send : env.getaddrinfo = 0 → env.create_ep = 0 → env.listen = 0 →
      env.get_request = 0 → env.query_qp = 0 → env.mr ≠ 0 →
      env.max_inline_data < 16 → env.send_mr = 0 →
      P ⟨Event.getaddrinfo env.getaddrinfo
          :: Event.create_ep env.create_ep env.listen_id
          :: Event.listen env.listen_id env.listen
          :: Event.get_request env.listen_id env.get_request env.id
          :: Event.query_qp env.id env.query_qp
          :: Event.reg_msgs env.id Buf.recv_msg 16 env.mr
          :: Event.reg_msgs env.id Buf.send_msg 16 env.send_mr
          :: out_dereg_recv ⟨env.listen_id, env.id, env.mr, env.send_mr, 0⟩,
        Outcome.exit (-1)⟩)
    (h_sge : env.getaddrinfo = 0 → env.create_ep = 0 → env.listen = 0 →
      env.get_request = 0 → env.query_qp = 0 → env.mr ≠ 0 →
      env.max_inline_data < 16 → env.send_mr ≠ 0 →
      P ⟨Event.getaddrinfo env.getaddrinfo
          :: Event.create_ep env.create_ep env.listen_id
          :: Event.listen env.listen_id env.listen
          :: Event.get_request env.listen_id env.get_request env.id
          :: Event.query_qp env.id env.query_qp
          :: Event.reg_msgs env.id Buf.recv_msg 16 env.mr
          :: Event.reg_msgs env.id Buf.send_msg 16 env.send_mr
          :: (exchange ⟨env.listen_id, env.id, env.mr, env.send_mr, 0⟩ env).trace,
        (exchange ⟨env.listen_id, env.id, env.mr, env.send_mr, 0⟩ env).outcome⟩)
    (h_inline : env.getaddrinfo = 0 → env.create_ep = 0 → env.listen = 0 →
      env.get_request = 0 → env.query_qp = 0 → env.mr ≠ 0 →
      16 ≤ env.max_inline_data →
      P ⟨Event.getaddrinfo env.getaddrinfo
          :: Event.create_ep env.create_ep env.listen_id
          :: Event.listen env.listen_id env.listen
          :: Event.get_request env.listen_id env.get_request env.id
          :: Event.query_qp env.id env.query_qp
          :: Event.reg_msgs env.id Buf.recv_msg 16 env.mr
          :: (exchange ⟨env.listen_id, env.id, env.mr, 0, IBV_SEND_INLINE⟩ env).trace,
        (exchange ⟨env.listen_id, env.id, env.mr, 0, IBV_SEND_INLINE⟩ env).outcome⟩) :
    P (run env) := by
  unfold run runFrom
  by_cases h1 : env.getaddrinfo = 0
  swap
  · simpa [h1] using h_getaddrinfo h1
  by_cases h2 : env.create_ep = 0
  swap
  · simpa [h1, h2] using h_create_ep h1 h2
  by_cases h3 : env.listen = 0
  swap
  · simpa [h1, h2, h3] using h_listen h1 h2 h3 _ _ _ _
  by_cases h4 : env.get_request = 0
  swap
  · simpa [h1, h2, h3, h4] using h_get_request h1 h2 h3 h4 _ _ _ _
  by_cases h5 : env.query_qp = 0
  swap
  · simpa [h1, h2, h3, h4, h5] using h_query_qp h1 h2 h3 h4 h5 _ _ _
  by_cases h6 : env.mr = 0
  · simpa [h1, h2, h3, h4, h5, h6] using h_reg_recv h1 h2 h3 h4 h5 h6 _ _
  by_cases h7 : 16 ≤ env.max_inline_data
  · have := h_inline h1 h2 h3 h4 h5 h6 h7
    simpa [h1, h2, h3, h4, h5, h6, h7, IBV_SEND_INLINE, Globals.init] using this
  · have h7' : env.max_inline_data < 16 := Nat.lt_of_not_le h7
    by_cases h8 : env.send_mr = 0
    · simpa [h1, h2, h3, h4, h5, h6, h7, h8, IBV_SEND_INLINE, Globals.init]
        using h_reg_send h1 h2 h3 h4 h5 h6 h7' h8
    · simpa [h1, h2, h3, h4, h5, h6, h7, h8, IBV_SEND_INLINE, Globals.init]
        using h_sge h1 h2 h3 h4 h5 h6 h7' h8

/-- A predicate that holds of every clean-up call holds on every clean-up chain. -/
theorem srv_all_out_disconnect (P : Event → Bool) (g : Globals)
    (h1 : ∀ i, P (Event.disconnect i) = true) (h2 : ∀ m, P (Event.dereg_mr m) = true)
    (h3 : ∀ i, P (Event.destroy_ep i) = true) (h4 : P Event.freeaddrinfo = true) :
    (out_disconnect g).all P = true := by
  unfold out_disconnect out_dereg_send out_dereg_recv out_destroy_accept_ep
    out_destroy_listen_ep out_free_addrinfo
  split_ifs <;> simp [h1, h2, h3, h4]

theorem srv_all_out_dereg_send (P : Event → Bool) (g : Globals)
    (h2 : ∀ m, P (Event.dereg_mr m) = true)
    (h3 : ∀ i, P (Event.destroy_ep i) = true) (h4 : P Event.freeaddrinfo = true) :
    (out_dereg_send g).all P = true := by
  unfold out_dereg_send out_dereg_recv out_destroy_accept_ep out_destroy_listen_ep
    out_free_addrinfo
  split_ifs <;> simp [h2, h3, h4]

theorem srv_any_failed_out_disconnect (g : Globals) : (out_disconnect g).any failed = false := by
  unfold out_disconnect out_dereg_send out_dereg_recv out_destroy_accept_ep
    out_destroy_listen_ep out_free_addrinfo
  split_ifs <;> simp [failed]

theorem srv_any_failed_out_dereg_send (g : Globals) : (out_dereg_send g).any failed = false := by
  unfold out_dereg_send out_dereg_recv out_destroy_accept_ep out_destroy_listen_ep
    out_free_addrinfo
  split_ifs <;> simp [failed]

theorem srv_exchange_agree (g : Globals) (env : Env) : Agree (exchange g env) := by
  apply srv_exchange_cases g env
  · intro h1
    right
    simp [failed, h1, srv_any_failed_out_dereg_send]
  · intro h1 h2
    right
    simp [failed, h1, h2]
  · intro h1 h2 hw
    left
    simp [failed, h1, h2, waitComp_any_failed, hw]
  · intro h1 h2 ret hw hret
    right
    simp [failed, h1, h2, waitComp_any_failed, hw, hret]
    omega
  · intro h1 h2 ret hw hret h3
    right
    simp [failed, h1, h2, h3, waitComp_any_failed, hw, hret]
  · intro h1 h2 ret hw hret h3 hw2
    left
    simp [failed, h1, h2, h3, waitComp_any_failed, hw, hret, hw2]
  · intro h1 h2 ret hw hret h3 ret2 hw2
    by_cases h5 : ret2 < 0
    · right
      simp [failed, h1, h2, h3, waitComp_any_failed, hw, hret, hw2, h5]
      omega
    · left
      simp [failed, h1, h2, h3, waitComp_any_failed, hw, hret, hw2, h5,
        srv_any_failed_out_disconnect]

theorem srv_run_agree (env : Env) : Agree (run env) := by
  apply srv_run_cases env
  · intro h1
    right
    simp [failed, h1]
  · intro h1 h2
    right
    simp [failed, h1, h2]
  · intro h1 h2 h3 i m sm sf
    right
    simp [failed, h1, h2, h3]
  · intro h1 h2 h3 h4 i m sm sf
    right
    simp [failed, h1, h2, h3, h4]
  · intro h1 h2 h3 h4 h5 m sm sf
    right
    simp [failed, h1, h2, h3, h4, h5]
  · intro h1 h2 h3 h4 h5 h6 sm sf
    right
    simp [failed, h1, h2, h3, h4, h5, h6]
  · intro h1 h2 h3 h4 h5 h6 h7 h8
    right
    simp [failed, h1, h2, h3, h4, h5, h6, h8]
  · intro h1 h2 h3 h4 h5 h6 h7 h8
    have := srv_exchange_agree ⟨env.listen_id, env.id, env.mr, env.send_mr, 0⟩ env
    simpa [Agree, failed, h1, h2, h3, h4, h5, h6, h8] using this
  · intro h1 h2 h3 h4 h5 h6 h7
    have := srv_exchange_agree ⟨env.listen_id, env.id, env.mr, 0, IBV_SEND_INLINE⟩ env
    simpa [Agree, failed, h1, h2, h3, h4, h5, h6] using this

theorem srv_exchange_neverAfter (g : Globals) (env : Env) :
    neverAfterB failed isAction (exchange g env).trace = true := by
  have A1 := srv_all_out_dereg_send (fun x => !isAction x) g (fun _ => rfl) (fun _ => rfl) rfl
  have A2 := srv_all_out_disconnect (fun x => !isAction x) g (fun _ => rfl) (fun _ => rfl)
    (fun _ => rfl) rfl
  have W1 := waitComp_all (fun x => !isAction x) (Event.get_send_comp g.id)
    (fun _ _ => rfl) env.send_comp
  have W2 := waitComp_all (fun x => !isAction x) (Event.get_recv_comp g.id)
    (fun _ _ => rfl) env.recv_comp
  have F1 := waitComp_any_failed (Event.get_recv_comp g.id) (fun _ _ => rfl) env.recv_comp
  have N1 := neverAfterB_of_all failed isAction _ A1
  have N2 := neverAfterB_of_all failed isAction _ A2
  have N3 := neverAfterB_of_all failed isAction _ W1
  have N4 := neverAfterB_of_all failed isAction _ W2
  apply srv_exchange_cases g env (fun r => neverAfterB failed isAction r.trace = true)
  · intro h1
    simp only [neverAfterB, A1, N1]
    simp
  · intro h1 h2
    simp only [neverAfterB, A1, N1, List.all_cons]
    simp [failed, h1, isAction]
  · intro h1 h2 hw
    simp only [neverAfterB, N4, List.all_cons, W2]
    simp [failed, h1, h2, isAction]
  · intro h1 h2 ret hw hret
    simp only [neverAfterB, neverAfterB_append, N4, N2, List.all_cons, List.all_append, W2, A2]
    simp [failed, h1, h2, isAction, N1, A1]
  · intro h1 h2 ret hw hret h3
    rw [hw] at F1
    simp only [neverAfterB, neverAfterB_append, N4, N2, List.all_cons, List.all_append, W2,
      A2, F1]
    simp [failed, h1, h2, isAction, hret, N1, A1]
  · intro h1 h2 ret hw hret h3 hw2
    rw [hw] at F1
    simp only [neverAfterB, neverAfterB_append, N4, N3, List.all_cons, List.all_append, W2,
      W1, F1]
    simp [failed, h1, h2, h3, isAction, hret, N1, A1]
  · intro h1 h2 ret hw hret h3 ret2 hw2
    rw [hw] at F1
    simp only [neverAfterB, neverAfterB_append, N4, N3, N2, List.all_cons, List.all_append,
      W2, W1, A2, F1]
    simp [failed, h1, h2, h3, isAction, hret, N1, A1]

theorem srv_run_neverAfter (env : Env) : neverAfterB failed isAction (run env).trace = true := by
  apply srv_run_cases env (fun r => neverAfterB failed isAction r.trace = true) <;> intros <;>
    simp [neverAfterB, srv_exchange_neverAfter, failed, isAction, out_free_addrinfo,
      out_destroy_listen_ep, out_destroy_accept_ep, out_dereg_recv, *]

theorem srv_exchange_before (g : Globals) (env : Env) (id : Nat) :
    beforeB (isRecvPosted id) (isAccept id) (exchange g env).trace = true := by
  have A1 := srv_all_out_dereg_send (fun x => !isAccept id x) g (fun _ => rfl) (fun _ => rfl) rfl
  have A2 := srv_all_out_disconnect (fun x => !isAccept id x) g (fun _ => rfl) (fun _ => rfl)
    (fun _ => rfl) rfl
  have W1 := waitComp_all (fun x => !isAccept id x) (Event.get_send_comp g.id)
    (fun _ _ => rfl) env.send_comp
  have W2 := waitComp_all (fun x => !isAccept id x) (Event.get_recv_comp g.id)
    (fun _ _ => rfl) env.recv_comp
  by_cases hid : g.id = id
  · apply srv_exchange_cases g env
      (fun r => beforeB (isRecvPosted id) (isAccept id) r.trace = true) <;> intros <;>
      simp_all [beforeB, beforeB_of_all, isRecvPosted, isAccept]
  · apply srv_exchange_cases g env
      (fun r => beforeB (isRecvPosted id) (isAccept id) r.trace = true) <;> intros <;>
      simp_all [beforeB, beforeB_of_all, isRecvPosted, isAccept]

theorem srv_run_before (env : Env) (id : Nat) :
    beforeB (isRecvPosted id) (isAccept id) (run env).trace = true := by
  apply srv_run_cases env (fun r => beforeB (isRecvPosted id) (isAccept id) r.trace = true) <;>
    intros <;>
    simp [beforeB, srv_exchange_before, isRecvPosted, isAccept, out_free_addrinfo,
      out_destroy_listen_ep, out_destroy_accept_ep, out_dereg_recv, *]

theorem srv_exchange_lifo (g : Globals) (env : Env) (st : List Res)
    (h : lifo created destroyed st (out_dereg_send g) = true) :
    lifo created destroyed st (exchange g env).trace = true := by
  have hd : lifo created destroyed st (out_disconnect g) = true := by
    rw [out_disconnect, lifo]
    exact h
  have n1 := waitComp_neutral (Event.get_recv_comp g.id) (fun _ _ => ⟨rfl, rfl⟩) env.recv_comp
  have n2 := waitComp_neutral (Event.get_send_comp g.id) (fun _ _ => ⟨rfl, rfl⟩) env.send_comp
  apply srv_exchange_cases g env (fun r => lifo created destroyed st r.trace = true) <;> intros <;>
    simp only [lifo, created, destroyed]
  · exact h
  · exact h
  · exact lifo_neutral _ _ _ n1 st
  · rw [lifo_append_neutral _ _ _ _ n1]
    exact hd
  · rw [lifo_append_neutral _ _ _ _ n1]
    simp only [lifo, created, destroyed]
    exact hd
  · rw [lifo_append_neutral _ _ _ _ n1]
    simp only [lifo, created, destroyed]
    exact lifo_neutral _ _ _ n2 st
  · rw [lifo_append_neutral _ _ _ _ n1]
    simp only [lifo, created, destroyed]
    rw [lifo_append_neutral _ _ _ _ n2]
    exact hd

theorem srv_run_lifo (env : Env) : lifo created destroyed [] (run env).trace = true := by
  apply srv_run_cases env (fun r => lifo created destroyed [] r.trace = true)
  · intro h1
    simp [lifo, created, destroyed, h1]
  · intro h1 h2
    simp [lifo, created, destroyed, h1, h2, out_free_addrinfo]
  · intro h1 h2 h3 i m sm sf
    simp [lifo, created, destroyed, h1, h2, out_free_addrinfo, out_destroy_listen_ep]
  · intro h1 h2 h3 h4 i m sm sf
    simp [lifo, created, destroyed, h1, h2, h4, out_free_addrinfo, out_destroy_listen_ep]
  · intro h1 h2 h3 h4 h5 m sm sf
    simp [lifo, created, destroyed, h1, h2, h4, out_free_addrinfo, out_destroy_listen_ep,
      out_destroy_accept_ep]
  · intro h1 h2 h3 h4 h5 h6 sm sf
    simp [lifo, created, destroyed, h1, h2, h4, h6, out_free_addrinfo, out_destroy_listen_ep,
      out_destroy_accept_ep]
  · intro h1 h2 h3 h4 h5 h6 h7 h8
    simp [lifo, created, destroyed, h1, h2, h4, h6, h8, out_free_addrinfo,
      out_destroy_listen_ep, out_destroy_accept_ep, out_dereg_recv]
  · intro h1 h2 h3 h4 h5 h6 h7 h8
    simp only [lifo, created, destroyed, h1, h2, h4, h6, h8, if_true, if_false]
    apply srv_exchange_lifo
    simp [lifo, created, destroyed, out_free_addrinfo, out_destroy_listen_ep,
      out_destroy_accept_ep, out_dereg_recv, out_dereg_send]
  · intro h1 h2 h3 h4 h5 h6 h7
    simp only [lifo, created, destroyed, h1, h2, h4, h6, if_true, if_false]
    apply srv_exchange_lifo
    simp [lifo, created, destroyed, out_free_addrinfo, out_destroy_listen_ep,
      out_destroy_accept_ep, out_dereg_recv, out_dereg_send, IBV_SEND_INLINE]

theorem srv_clearStatus_proj (env : Env) :
    (clearStatus env).getaddrinfo = env.getaddrinfo
    ∧ (clearStatus env).create_ep = env.create_ep
    ∧ (clearStatus env).listen_id = env.listen_id
    ∧ (clearStatus env).listen = env.listen
    ∧ (clearStatus env).get_request = env.get_request
    ∧ (clearStatus env).id = env.id
    ∧ (clearStatus env).query_qp = env.query_qp
    ∧ (clearStatus env).max_inline_data = env.max_inline_data
    ∧ (clearStatus env).mr = env.mr
    ∧ (clearStatus env).send_mr = env.send_mr
    ∧ (clearStatus env).post_recv = env.post_recv
    ∧ (clearStatus env).accept = env.accept
    ∧ (clearStatus env).post_send = env.post_send
    ∧ (clearStatus env).send_comp = env.send_comp.map CompResp.clear
    ∧ (clearStatus env).recv_comp = env.recv_comp.map CompResp.clear :=
  ⟨rfl, rfl, rfl, rfl, rfl, rfl, rfl, rfl, rfl, rfl, rfl, rfl, rfl, rfl, rfl⟩

theorem srv_exchange_outcome_clear (g : Globals) (env : Env) :
    (exchange g (clearStatus env)).outcome = (exchange g env).outcome := by
  apply srv_exchange_cases g env (fun r => (exchange g (clearStatus env)).outcome = r.outcome) <;>
    intros <;> simp [exchange, srv_clearStatus_proj, waitComp_clear, *]

theorem srv_run_outcome_clear (env : Env) :
    (run (clearStatus env)).outcome = (run env).outcome := by
  apply srv_run_cases env (fun r => (run (clearStatus env)).outcome = r.outcome)
  · intro h1
    simp [run, runFrom, srv_clearStatus_proj, h1]
  · intro h1 h2
    simp [run, runFrom, srv_clearStatus_proj, h1, h2]
  · intro h1 h2 h3 i m sm sf
    simp [run, runFrom, srv_clearStatus_proj, h1, h2, h3]
  · intro h1 h2 h3 h4 i m sm sf
    simp [run, runFrom, srv_clearStatus_proj, h1, h2, h3, h4]
  · intro h1 h2 h3 h4 h5 m sm sf
    simp [run, runFrom, srv_clearStatus_proj, h1, h2, h3, h4, h5]
  · intro h1 h2 h3 h4 h5 h6 sm sf
    simp [run, runFrom, srv_clearStatus_proj, h1, h2, h3, h4, h5, h6]
  · intro h1 h2 h3 h4 h5 h6 h7 h8
    simp [run, runFrom, srv_clearStatus_proj, h1, h2, h3, h4, h5, h6, h8, Nat.not_le.mpr h7,
      Globals.init]
  · intro h1 h2 h3 h4 h5 h6 h7 h8
    simp [run, runFrom, srv_clearStatus_proj, h1, h2, h3, h4, h5, h6, h8, Nat.not_le.mpr h7,
      Globals.init, srv_exchange_outcome_clear]
  · intro h1 h2 h3 h4 h5 h6 h7
    simp [run, runFrom, srv_clearStatus_proj, h1, h2, h3, h4, h5, h6, h7, Globals.init,
      IBV_SEND_INLINE, srv_exchange_outcome_clear]

theorem srv_exchange_sendIs (g : Globals) (env : Env) :
    (exchange g env).trace.all (sendIs g.send_mr g.send_flags) = true := by
  have A1 := srv_all_out_dereg_send (sendIs g.send_mr g.send_flags) g (fun _ => rfl) (fun _ => rfl)
    rfl
  have A2 := srv_all_out_disconnect (sendIs g.send_mr g.send_flags) g (fun _ => rfl) (fun _ => rfl)
    (fun _ => rfl) rfl
  have W1 := waitComp_all (sendIs g.send_mr g.send_flags) (Event.get_send_comp g.id)
    (fun _ _ => rfl) env.send_comp
  have W2 := waitComp_all (sendIs g.send_mr g.send_flags) (Event.get_recv_comp g.id)
    (fun _ _ => rfl) env.recv_comp
  apply srv_exchange_cases g env
    (fun r => r.trace.all (sendIs g.send_mr g.send_flags) = true) <;> intros <;>
    simp_all [sendIs]

theorem srv_run_sendIs (env : Env) :
    (run env).trace.all
      (sendIs (if 16 ≤ env.max_inline_data then 0 else env.send_mr)
        (if 16 ≤ env.max_inline_data then IBV_SEND_INLINE else 0)) = true := by
  apply srv_run_cases env (fun r => r.trace.all
      (sendIs (if 16 ≤ env.max_inline_data then 0 else env.send_mr)
        (if 16 ≤ env.max_inline_data then IBV_SEND_INLINE else 0)) = true)
  · intro h1
    simp [sendIs]
  · intro h1 h2
    simp [sendIs, out_free_addrinfo]
  · intro h1 h2 h3 i m sm sf
    simp [sendIs, out_free_addrinfo, out_destroy_listen_ep]
  · intro h1 h2 h3 h4 i m sm sf
    simp [sendIs, out_free_addrinfo, out_destroy_listen_ep]
  · intro h1 h2 h3 h4 h5 m sm sf
    simp [sendIs, out_free_addrinfo, out_destroy_listen_ep, out_destroy_accept_ep]
  · intro h1 h2 h3 h4 h5 h6 sm sf
    simp [sendIs, out_free_addrinfo, out_destroy_listen_ep, out_destroy_accept_ep]
  · intro h1 h2 h3 h4 h5 h6 h7 h8
    simp [sendIs, out_free_addrinfo, out_destroy_listen_ep, out_destroy_accept_ep,
      out_dereg_recv]
  · intro h1 h2 h3 h4 h5 h6 h7 h8
    have := srv_exchange_sendIs ⟨env.listen_id, env.id, env.mr, env.send_mr, 0⟩ env
    simp only [Nat.not_le.mpr h7, if_false]
    simpa [sendIs] using this
  · intro h1 h2 h3 h4 h5 h6 h7
    have := srv_exchange_sendIs ⟨env.listen_id, env.id, env.mr, 0, IBV_SEND_INLINE⟩ env
    simp only [h7, if_true]
    simpa [sendIs] using this

theorem srv_exchange_no_sge (g : Globals) (env : Env) (mr : Nat)
    (h : g.send_mr ≠ mr ∨ g.send_flags &&& IBV_SEND_INLINE ≠ 0) :
    (exchange g env).trace.all (fun x => !isSgeSend mr x) = true := by
  have hs := srv_exchange_sendIs g env
  rw [List.all_eq_true] at hs ⊢
  intro e he
  have := hs e he
  cases e <;> simp_all [sendIs, isSgeSend]

theorem srv_run_before_sge (env : Env) (mr : Nat) :
    beforeB (isSendReg mr) (isSgeSend mr) (run env).trace = true := by
  apply srv_run_cases env (fun r => beforeB (isSendReg mr) (isSgeSend mr) r.trace = true)
  · intro h1
    simp [beforeB, isSendReg, isSgeSend]
  · intro h1 h2
    simp [beforeB, isSendReg, isSgeSend, out_free_addrinfo]
  · intro h1 h2 h3 i m sm sf
    simp [beforeB, isSendReg, isSgeSend, out_free_addrinfo, out_destroy_listen_ep]
  · intro h1 h2 h3 h4 i m sm sf
    simp [beforeB, isSendReg, isSgeSend, out_free_addrinfo, out_destroy_listen_ep]
  · intro h1 h2 h3 h4 h5 m sm sf
    simp [beforeB, isSendReg, isSgeSend, out_free_addrinfo, out_destroy_listen_ep,
      out_destroy_accept_ep]
  · intro h1 h2 h3 h4 h5 h6 sm sf
    simp [beforeB, isSendReg, isSgeSend, out_free_addrinfo, out_destroy_listen_ep,
      out_destroy_accept_ep]
  · intro h1 h2 h3 h4 h5 h6 h7 h8
    simp [beforeB, isSendReg, isSgeSend, out_free_addrinfo, out_destroy_listen_ep,
      out_destroy_accept_ep, out_dereg_recv]
  · intro h1 h2 h3 h4 h5 h6 h7 h8
    by_cases hm : env.send_mr = mr
    · subst hm
      simp [beforeB, isSendReg, isSgeSend, h8]
    · have := beforeB_of_all (isSendReg mr) (isSgeSend mr) _
        (srv_exchange_no_sge ⟨env.listen_id, env.id, env.mr, env.send_mr, 0⟩ env mr (Or.inl hm))
      simp [beforeB, isSendReg, isSgeSend, hm, this]
  · intro h1 h2 h3 h4 h5 h6 h7
    have hq : (⟨env.listen_id, env.id, env.mr, 0, IBV_SEND_INLINE⟩ : Globals).send_flags
        &&& IBV_SEND_INLINE ≠ 0 := by
      show IBV_SEND_INLINE &&& IBV_SEND_INLINE ≠ 0
      decide
    have := beforeB_of_all (isSendReg mr) (isSgeSend mr) _
      (srv_exchange_no_sge ⟨env.listen_id, env.id, env.mr, 0, IBV_SEND_INLINE⟩ env mr (Or.inr hq))
    simp [beforeB, isSendReg, isSgeSend, this]

theorem srv_exchange_positive (g : Globals) (env : Env)
    (h : (exchange g env).outcome = Outcome.exit 0) :
    (∃ r s, 0 < r ∧ Event.get_send_comp g.id r s ∈ (exchange g env).trace)
    ∧ (∃ r s, 0 < r ∧ Event.get_recv_comp g.id r s ∈ (exchange g env).trace) := by
  revert h
  apply srv_exchange_cases g env (fun r => r.outcome = Outcome.exit 0 →
    (∃ r1 s, 0 < r1 ∧ Event.get_send_comp g.id r1 s ∈ r.trace)
    ∧ (∃ r2 s, 0 < r2 ∧ Event.get_recv_comp g.id r2 s ∈ r.trace))
  · intro h1 h
    simp at h
    exact absurd h h1
  · intro h1 h2 h
    simp at h
    exact absurd h h2
  · intro h1 h2 hw h
    simp at h
  · intro h1 h2 ret hw hret h
    simp at h
    omega
  · intro h1 h2 ret hw hret h3 h
    simp at h
    exact absurd h h3
  · intro h1 h2 ret hw hret h3 hw2 h
    simp at h
  · intro h1 h2 ret hw hret h3 ret2 hw2 h
    obtain ⟨hr, s, hs⟩ := waitComp_some _ _ _ hw
    obtain ⟨hr2, s2, hs2⟩ := waitComp_some _ _ _ hw2
    have h5 : ¬ ret2 < 0 := by
      intro h5
      simp [h5] at h
      exact hr2 h
    refine ⟨⟨ret2, s2, by omega, ?_⟩, ⟨ret, s, by omega, ?_⟩⟩
    · simp [hs2]
    · simp [hs]

theorem srv_run_positive (env : Env) (h : (run env).outcome = Outcome.exit 0) :
    (∃ r s, 0 < r ∧ Event.get_send_comp env.id r s ∈ (run env).trace)
    ∧ (∃ r s, 0 < r ∧ Event.get_recv_comp env.id r s ∈ (run env).trace) := by
  revert h
  apply srv_run_cases env (fun r => r.outcome = Outcome.exit 0 →
    (∃ r1 s, 0 < r1 ∧ Event.get_send_comp env.id r1 s ∈ r.trace)
    ∧ (∃ r2 s, 0 < r2 ∧ Event.get_recv_comp env.id r2 s ∈ r.trace))
  · intro h1 h
    simp at h
    exact absurd h h1
  · intro h1 h2 h
    simp at h
    exact absurd h h2
  · intro h1 h2 h3 i m sm sf h
    simp at h
    exact absurd h h3
  · intro h1 h2 h3 h4 i m sm sf h
    simp at h
    exact absurd h h4
  · intro h1 h2 h3 h4 h5 m sm sf h
    simp at h
    exact absurd h h5
  · intro h1 h2 h3 h4 h5 h6 sm sf h
    simp at h
  · intro h1 h2 h3 h4 h5 h6 h7 h8 h
    simp at h
  · intro h1 h2 h3 h4 h5 h6 h7 h8 h
    obtain ⟨⟨r, s, hr, hm⟩, ⟨r2, s2, hr2, hm2⟩⟩ := srv_exchange_positive _ env h
    exact ⟨⟨r, s, hr, by simp [hm]⟩, ⟨r2, s2, hr2, by simp [hm2]⟩⟩
  · intro h1 h2 h3 h4 h5 h6 h7 h
    obtain ⟨⟨r, s, hr, hm⟩, ⟨r2, s2, hr2, hm2⟩⟩ := srv_exchange_positive _ env h
    exact ⟨⟨r, s, hr, by simp [hm]⟩, ⟨r2, s2, hr2, by simp [hm2]⟩⟩

theorem srv_exchange_destroyed (g : Globals) (env : Env) :
    (exchange g env).trace.filterMap destroyed = []
    ∨ (exchange g env).trace.filterMap destroyed = (out_dereg_send g).filterMap destroyed := by
  have n1 := filterMap_destroyed_nil _
    (waitComp_neutral (Event.get_send_comp g.id) (fun _ _ => ⟨rfl, rfl⟩) env.send_comp)
  have n2 := filterMap_destroyed_nil _
    (waitComp_neutral (Event.get_recv_comp g.id) (fun _ _ => ⟨rfl, rfl⟩) env.recv_comp)
  apply srv_exchange_cases g env (fun r => r.trace.filterMap destroyed = []
    ∨ r.trace.filterMap destroyed = (out_dereg_send g).filterMap destroyed) <;> intros <;>
    simp [List.filterMap_cons, List.filterMap_append, destroyed, n1, n2, out_disconnect]

theorem srv_run_destroyed (env : Env) :
    (run env).trace.filterMap destroyed
      <:+ [Res.mr env.send_mr, Res.mr env.mr, Res.ep env.id, Res.ep env.listen_id,
           Res.addrinfo] := by
  apply srv_run_cases env (fun r => r.trace.filterMap destroyed
      <:+ [Res.mr env.send_mr, Res.mr env.mr, Res.ep env.id, Res.ep env.listen_id,
           Res.addrinfo])
  · intro h1
    exact ⟨_, List.append_nil _⟩
  · intro h1 h2
    exact ⟨[Res.mr env.send_mr, Res.mr env.mr, Res.ep env.id, Res.ep env.listen_id], rfl⟩
  · intro h1 h2 h3 i m sm sf
    exact ⟨[Res.mr env.send_mr, Res.mr env.mr, Res.ep env.id], rfl⟩
  · intro h1 h2 h3 h4 i m sm sf
    exact ⟨[Res.mr env.send_mr, Res.mr env.mr, Res.ep env.id], rfl⟩
  · intro h1 h2 h3 h4 h5 m sm sf
    exact ⟨[Res.mr env.send_mr, Res.mr env.mr], rfl⟩
  · intro h1 h2 h3 h4 h5 h6 sm sf
    exact ⟨[Res.mr env.send_mr, Res.mr env.mr], rfl⟩
  · intro h1 h2 h3 h4 h5 h6 h7 h8
    exact ⟨[Res.mr env.send_mr], rfl⟩
  · intro h1 h2 h3 h4 h5 h6 h7 h8
    rcases srv_exchange_destroyed ⟨env.listen_id, env.id, env.mr, env.send_mr, 0⟩ env with h | h
    · simp only [List.filterMap_cons, destroyed, h]
      exact ⟨_, List.append_nil _⟩
    · simp only [List.filterMap_cons, destroyed, h]
      exact ⟨[], by
        simp [out_dereg_send, out_dereg_recv, out_destroy_accept_ep, out_destroy_listen_ep,
          out_free_addrinfo, destroyed, IBV_SEND_INLINE]⟩
  · intro h1 h2 h3 h4 h5 h6 h7
    rcases srv_exchange_destroyed ⟨env.listen_id, env.id, env.mr, 0, IBV_SEND_INLINE⟩ env
      with h | h
    · simp only [List.filterMap_cons, destroyed, h]
      exact ⟨_, List.append_nil _⟩
    · simp only [List.filterMap_cons, destroyed, h]
      exact ⟨[Res.mr env.send_mr], by
        simp [out_dereg_send, out_dereg_recv, out_destroy_accept_ep, out_destroy_listen_ep,
          out_free_addrinfo, destroyed, IBV_SEND_INLINE]⟩

end Server

/-! ## Lemmas on basic_recv.c -/

namespace BasicRecv

theorem postRecvs_get (lkey : Nat) (rs : List Int) (i j : Nat) (e : Event)
    (h : (postRecvs lkey i rs).1[j]? = some e) :
    i + j < 4 ∧ ∃ ret, e = Event.post_recv (mkWr lkey (i + j)) ret := by
  induction rs generalizing i j with
  | nil =>
    unfold postRecvs at h
    split at h <;> simp at h
  | cons r rs ih =>
    unfold postRecvs at h
    by_cases hi : i < 4
    · by_cases hr : r = 0
      · simp only [hi, hr, if_true, ne_eq, not_true_eq_false, if_false] at h
        cases j with
        | zero =>
          simp only [List.getElem?_cons_zero, Option.some.injEq] at h
          exact ⟨hi, 0, h.symm⟩
        | succ j =>
          simp only [List.getElem?_cons_succ] at h
          obtain ⟨h1, ret, h2⟩ := ih (i + 1) j h
          have : i + 1 + j = i + (j + 1) := by omega
          rw [this] at h1 h2
          exact ⟨h1, ret, h2⟩
      · simp only [hi, hr, if_true, ne_eq, not_false_eq_true] at h
        cases j with
        | zero =>
          simp only [List.getElem?_cons_zero, Option.some.injEq] at h
          exact ⟨hi, r, h.symm⟩
        | succ j => simp at h
    · simp [hi] at h

theorem postRecvs_mem (lkey : Nat) (rs : List Int) (i : Nat) (e : Event)
    (h : e ∈ (postRecvs lkey i rs).1) :
    ∃ j ret, j < 4 ∧ e = Event.post_recv (mkWr lkey j) ret := by
  obtain ⟨n, hn⟩ := List.getElem?_of_mem h
  obtain ⟨h1, ret, h2⟩ := postRecvs_get lkey rs i n e hn
  exact ⟨i + n, ret, h1, h2⟩

theorem pollCqs_mem (ps : List PollResp) (i : Nat) (e : Event) (h : e ∈ (pollCqs i ps).1) :
    (∃ ne wc, e = Event.poll_cq ne wc) ∨ (∃ j, j < 4 ∧ e = Event.received (MAX_MSG_SIZE * j + 40)) := by
  induction ps generalizing i with
  | nil =>
    unfold pollCqs at h
    split at h <;> simp at h
  | cons p ps ih =>
    unfold pollCqs at h
    by_cases hi : i < 4
    · simp only [hi, if_true] at h
      split_ifs at h
      · simp only [List.mem_cons] at h
        rcases h with rfl | h
        · exact Or.inl ⟨_, _, rfl⟩
        · exact ih i h
      · simp only [List.mem_singleton] at h
        exact Or.inl ⟨_, _, h⟩
      · simp only [List.mem_singleton] at h
        exact Or.inl ⟨_, _, h⟩
      · simp only [List.mem_cons] at h
        rcases h with rfl | rfl | h
        · exact Or.inl ⟨_, _, rfl⟩
        · exact Or.inr ⟨i, hi, rfl⟩
        · exact ih (i + 1) h
    · simp [hi] at h

theorem recvLoop_mem (lkey : Nat) (rs : List Round) (e : Event)
    (h : e ∈ (recvLoop lkey rs).1) :
    (∃ j ret, j < 4 ∧ e = Event.post_recv (mkWr lkey j) ret)
    ∨ (∃ ne wc, e = Event.poll_cq ne wc)
    ∨ (∃ j, j < 4 ∧ e = Event.received (MAX_MSG_SIZE * j + 40))
    ∨ e = Event.getchar := by
  induction rs with
  | nil => simp [recvLoop] at h
  | cons r rs ih =>
    unfold recvLoop at h
    split at h
    · exact Or.inl (postRecvs_mem lkey _ 0 e h)
    · split at h
      · simp only [List.mem_append] at h
        rcases h with h | h
        · exact Or.inl (postRecvs_mem lkey _ 0 e h)
        · exact Or.inr (by
            rcases pollCqs_mem _ 0 e h with h | h
            · exact Or.inl h
            · exact Or.inr (Or.inl h))
      · simp only [List.mem_append, List.mem_cons] at h
        rcases h with (h | h) | rfl | h
        · exact Or.inl (postRecvs_mem lkey _ 0 e h)
        · exact Or.inr (by
            rcases pollCqs_mem _ 0 e h with h | h
            · exact Or.inl h
            · exact Or.inr (Or.inl h))
        · exact Or.inr (Or.inr (Or.inr rfl))
        · exact ih h

theorem recvLoop_neutral (lkey : Nat) (rs : List Round) (e : Event)
    (h : e ∈ (recvLoop lkey rs).1) : created e = none ∧ destroyed e = none := by
  rcases recvLoop_mem lkey rs e h with ⟨j, ret, _, rfl⟩ | ⟨ne, wc, rfl⟩ | ⟨j, _, rfl⟩ | rfl <;>
    exact ⟨rfl, rfl⟩

theorem recv_filterMap_destroyed_nil (l : List Event)
    (h : ∀ e, e ∈ l → created e = none ∧ destroyed e = none) :
    l.filterMap destroyed = [] := by
  induction l with
  | nil => rfl
  | cons a as ih =>
    rw [List.filterMap_cons, (h a (List.mem_cons_self _ _)).2]
    exact ih (fun e he => h e (List.mem_cons_of_mem _ he))

theorem withDevice_cases (env : Env) (i : Nat) (P : Result → Prop)
    (h_context : env.context = false →
      P ⟨Event.get_device_list true :: Event.open_device i env.context :: free_dev_list,
        Outcome.exit 0⟩)
    (h_pd : env.context = true → env.pd = false →
      P ⟨Event.get_device_list true :: Event.open_device i env.context
          :: Event.alloc_pd env.pd :: close_device, Outcome.exit 0⟩)
    (h_mr : env.context = true → env.pd = true → env.mr = none →
      P ⟨Event.get_device_list true :: Event.open_device i env.context
          :: Event.alloc_pd env.pd :: Event.reg_mr REGION_SIZE false :: close_pd,
        Outcome.exit 0⟩)
    (h_cq : env.context = true → env.pd = true → ∀ lkey, env.mr = some lkey →
      env.cq = false →
      P ⟨Event.get_device_list true :: Event.open_device i env.context
          :: Event.alloc_pd env.pd :: Event.reg_mr REGION_SIZE true
          :: Event.create_cq CQ_SIZE env.cq :: free_mr, Outcome.exit 0⟩)
    (h_qp : env.context = true → env.pd = true → ∀ lkey, env.mr = some lkey →
      env.cq = true → env.qp = false →
      P ⟨Event.get_device_list true :: Event.open_device i env.context
          :: Event.alloc_pd env.pd :: Event.reg_mr REGION_SIZE true
          :: Event.create_cq CQ_SIZE env.cq :: Event.create_qp MAX_NUM_RECVS env.qp
          :: free_cq, Outcome.exit 0⟩)
    (h_init : env.context = true → env.pd = true → ∀ lkey, env.mr = some lkey →
      env.cq = true → env.qp = true → env.modify_init ≠ 0 →
      P ⟨Event.get_device_list true :: Event.open_device i env.context
          :: Event.alloc_pd env.pd :: Event.reg_mr REGION_SIZE true
          :: Event.create_cq CQ_SIZE env.cq :: Event.create_qp MAX_NUM_RECVS env.qp
          :: Event.modify_qp QpState.INIT env.modify_init :: free_qp, Outcome.exit 0⟩)
    (h_rtr : env.context = true → env.pd = true → ∀ lkey, env.mr = some lkey →
      env.cq = true → env.qp = true → env.modify_init = 0 → env.modify_rtr ≠ 0 →
      P ⟨Event.get_device_list true :: Event.open_device i env.context
          :: Event.alloc_pd env.pd :: Event.reg_mr REGION_SIZE true
          :: Event.create_cq CQ_SIZE env.cq :: Event.create_qp MAX_NUM_RECVS env.qp
          :: Event.modify_qp QpState.INIT env.modify_init
          :: Event.modify_qp QpState.RTR env.modify_rtr :: free_qp, Outcome.exit 0⟩)
    (h_loop : env.context = true → env.pd = true → ∀ lkey, env.mr = some lkey →
      env.cq = true → env.qp = true → env.modify_init = 0 → env.modify_rtr = 0 →
      P ⟨Event.get_device_list true :: Event.open_device i env.context
          :: Event.alloc_pd env.pd :: Event.reg_mr REGION_SIZE true
          :: Event.create_cq CQ_SIZE env.cq :: Event.create_qp MAX_NUM_RECVS env.qp
          :: Event.modify_qp QpState.INIT env.modify_init
          :: Event.modify_qp QpState.RTR env.modify_rtr :: (recvLoop lkey env.rounds).1,
        (recvLoop lkey env.rounds).2⟩) :
    P (withDevice env i) := by
  unfold withDevice
  by_cases h1 : env.context = false
  · simpa [h1] using h_context h1
  have h1' : env.context = true := by simpa using h1
  by_cases h2 : env.pd = false
  · simpa [h1', h2] using h_pd h1' h2
  have h2' : env.pd = true := by simpa using h2
  cases h3 : env.mr with
  | none => simpa [h1', h2', h3] using h_mr h1' h2' h3
  | some lkey =>
    by_cases h4 : env.cq = false
    · simpa [h1', h2', h3, h4] using h_cq h1' h2' lkey h3 h4
    have h4' : env.cq = true := by simpa using h4
    by_cases h5 : env.qp = false
    · simpa [h1', h2', h3, h4', h5] using h_qp h1' h2' lkey h3 h4' h5
    have h5' : env.qp = true := by simpa using h5
    by_cases h6 : env.modify_init = 0
    swap
    · simpa [h1', h2', h3, h4', h5', h6] using h_init h1' h2' lkey h3 h4' h5' h6
    by_cases h7 : env.modify_rtr = 0
    swap
    · simpa [h1', h2', h3, h4', h5', h6, h7] using h_rtr h1' h2' lkey h3 h4' h5' h6 h7
    simpa [h1', h2', h3, h4', h5', h6, h7] using h_loop h1' h2' lkey h3 h4' h5' h6 h7

theorem main_cases (env : Env) (P : Result → Prop)
    (h_usage : P ⟨[], Outcome.exit 1⟩)
    (h_list : P ⟨[Event.get_device_list false], Outcome.exit 1⟩)
    (h_missing : P ⟨Event.get_device_list true :: free_dev_list, Outcome.exit 0⟩)
    (h_undefined : P ⟨[Event.get_device_list true], Outcome.undefined⟩)
    (h_device : ∀ i, P (withDevice env i)) :
    P (main env) := by
  unfold main
  split
  · exact h_usage
  · split
    · exact h_list
    · split
      · split
        · exact h_missing
        · exact h_undefined
      · split
        · exact h_missing
        · exact h_device _

theorem withDevice_lifo (env : Env) (i : Nat) :
    lifo created destroyed [] (withDevice env i).trace = true := by
  apply withDevice_cases env i (fun r => lifo created destroyed [] r.trace = true)
  · intro h1
    simp [lifo, created, destroyed, h1, free_dev_list]
  · intro h1 h2
    simp [lifo, created, destroyed, h1, h2, free_dev_list, close_device]
  · intro h1 h2 h3
    simp [lifo, created, destroyed, h1, h2, free_dev_list, close_device, close_pd]
  · intro h1 h2 lkey h3 h4
    simp [lifo, created, destroyed, h1, h2, h4, free_dev_list, close_device, close_pd, free_mr]
  · intro h1 h2 lkey h3 h4 h5
    simp [lifo, created, destroyed, h1, h2, h4, h5, free_dev_list, close_device, close_pd,
      free_mr, free_cq]
  · intro h1 h2 lkey h3 h4 h5 h6
    simp [lifo, created, destroyed, h1, h2, h4, h5, free_dev_list, close_device, close_pd,
      free_mr, free_cq, free_qp]
  · intro h1 h2 lkey h3 h4 h5 h6 h7
    simp [lifo, created, destroyed, h1, h2, h4, h5, free_dev_list, close_device, close_pd,
      free_mr, free_cq, free_qp]
  · intro h1 h2 lkey h3 h4 h5 h6 h7
    simp only [lifo, created, destroyed, h1, h2, h4, h5]
    exact lifo_neutral _ _ _ (recvLoop_neutral lkey env.rounds) _

theorem main_lifo (env : Env) : lifo created destroyed [] (main env).trace = true := by
  apply main_cases env (fun r => lifo created destroyed [] r.trace = true)
  · rfl
  · rfl
  · rfl
  · rfl
  · exact withDevice_lifo env

theorem withDevice_destroyed (env : Env) (i : Nat) :
    (withDevice env i).trace.filterMap destroyed
      <:+ [Res.qp, Res.cq, Res.mr, Res.pd, Res.context, Res.dev_list] := by
  apply withDevice_cases env i (fun r => r.trace.filterMap destroyed
      <:+ [Res.qp, Res.cq, Res.mr, Res.pd, Res.context, Res.dev_list])
  · intro h1
    exact ⟨[Res.qp, Res.cq, Res.mr, Res.pd, Res.context], rfl⟩
  · intro h1 h2
    exact ⟨[Res.qp, Res.cq, Res.mr, Res.pd], rfl⟩
  · intro h1 h2 h3
    exact ⟨[Res.qp, Res.cq, Res.mr], rfl⟩
  · intro h1 h2 lkey h3 h4
    exact ⟨[Res.qp, Res.cq], rfl⟩
  · intro h1 h2 lkey h3 h4 h5
    exact ⟨[Res.qp], rfl⟩
  · intro h1 h2 lkey h3 h4 h5 h6
    exact ⟨[], rfl⟩
  · intro h1 h2 lkey h3 h4 h5 h6 h7
    exact ⟨[], rfl⟩
  · intro h1 h2 lkey h3 h4 h5 h6 h7
    have := recv_filterMap_destroyed_nil _ (recvLoop_neutral lkey env.rounds)
    simp only [List.filterMap_cons, destroyed, this]
    exact ⟨_, List.append_nil _⟩

theorem main_destroyed (env : Env) :
    (main env).trace.filterMap destroyed
      <:+ [Res.qp, Res.cq, Res.mr, Res.pd, Res.context, Res.dev_list] := by
  apply main_cases env (fun r => r.trace.filterMap destroyed
      <:+ [Res.qp, Res.cq, Res.mr, Res.pd, Res.context, Res.dev_list])
  · exact ⟨_, List.append_nil _⟩
  · exact ⟨_, List.append_nil _⟩
  · exact ⟨[Res.qp, Res.cq, Res.mr, Res.pd, Res.context], rfl⟩
  · exact ⟨_, List.append_nil _⟩
  · exact withDevice_destroyed env

theorem pollCqs_head (ps : List PollResp) (i : Nat) :
    (pollCqs i ps).1 = [] ∨ ∃ ne wc rest, (pollCqs i ps).1 = Event.poll_cq ne wc :: rest := by
  cases ps with
  | nil =>
    unfold pollCqs
    split <;> exact Or.inl rfl
  | cons p ps =>
    unfold pollCqs
    split_ifs
    · exact Or.inr ⟨_, _, _, rfl⟩
    · exact Or.inr ⟨_, _, _, rfl⟩
    · exact Or.inr ⟨_, _, _, rfl⟩
    · exact Or.inr ⟨_, _, _, rfl⟩
    · exact Or.inl rfl

theorem reports_poll_cons (ne : Int) (wc : Wc) (ps : List PollResp) (i : Nat) :
    reports (Event.poll_cq ne wc :: (pollCqs i ps).1) = reports (pollCqs i ps).1 := by
  rcases pollCqs_head ps i with h | ⟨ne2, wc2, rest, h⟩
  · rw [h]
    simp [reports]
  · rw [h]
    simp [reports]

theorem pollCqs_reports (ps : List PollResp) (i k : Nat) (p : Nat × Nat)
    (h : (reports (pollCqs i ps).1)[k]? = some p) :
    i + k < 4 ∧ p.2 = MAX_MSG_SIZE * (i + k) + 40 := by
  induction ps generalizing i k with
  | nil =>
    unfold pollCqs at h
    split at h <;> simp [reports] at h
  | cons q qs ih =>
    unfold pollCqs at h
    by_cases hi : i < 4
    · simp only [hi, if_true] at h
      split_ifs at h
      · rw [reports_poll_cons] at h
        exact ih i k h
      · simp [reports] at h
      · simp [reports] at h
      · simp only [reports] at h
        cases k with
        | zero =>
          simp only [List.getElem?_cons_zero, Option.some.injEq] at h
          subst h
          exact ⟨hi, rfl⟩
        | succ k =>
          simp only [List.getElem?_cons_succ] at h
          obtain ⟨h1, h2⟩ := ih (i + 1) k h
          have : i + 1 + k = i + (k + 1) := by omega
          rw [this] at h1 h2
          exact ⟨h1, h2⟩
    · simp [hi, reports] at h

end BasicRecv

/-! ## A run without a failed call returns -/

namespace Cm

theorem waitComp_none (call : Int → Nat → Event) (rs : List CompResp)
    (h : (waitComp call rs).2 = none) (e : Event) (he : e ∈ (waitComp call rs).1) :
    ∃ s, e = call 0 s := by
  obtain ⟨r, s, rfl, hr | hr⟩ := waitComp_mem call rs e he
  · exact ⟨s, by rw [hr]⟩
  · rw [h] at hr
    cases hr

end Cm

namespace Client
open Cm

/-- While `run` is still in a wait loop no receive completion wait has returned
anything but `0`. -/
theorem cli_exchange_running (g : Globals) (env : Env) (r : Int) (s : Nat)
    (h : (exchange g env).outcome = Outcome.running)
    (hm : Event.get_recv_comp g.id r s ∈ (exchange g env).trace) : r = 0 := by
  have W1 := not_mem_of_all_ne (Event.get_recv_comp g.id r s) _
    (waitComp_all (fun x => decide (x ≠ Event.get_recv_comp g.id r s))
      (Event.get_send_comp g.id) (by simp) env.send_comp)
  revert h hm
  apply cli_exchange_cases g env (fun res => res.outcome = Outcome.running →
    Event.get_recv_comp g.id r s ∈ res.trace → r = 0)
  · intro _ h
    simp at h
  · intro _ _ h
    simp at h
  · intro _ _ _ h
    simp at h
  · intro _ _ _ _ _ hm
    simp [W1] at hm
  · intro _ _ _ _ _ _ h
    simp at h
  · intro _ _ _ ret _ _ hw2 _ hm
    simp only [List.mem_cons, reduceCtorEq, false_or, List.mem_append, W1] at hm
    obtain ⟨s2, he⟩ := waitComp_none _ _ hw2 _ hm
    simp only [Event.get_recv_comp.injEq] at he
    exact he.2.1
  · intro _ _ _ _ _ _ _ _ h
    simp at h

theorem cli_run_running (env : Env) (r : Int) (s : Nat)
    (h : (run env).outcome = Outcome.running)
    (hm : Event.get_recv_comp env.id r s ∈ (run env).trace) : r = 0 := by
  revert h hm
  apply cli_run_cases env (fun res => res.outcome = Outcome.running →
    Event.get_recv_comp env.id r s ∈ res.trace → r = 0)
  · intro _ h
    simp at h
  · intro _ _ h
    simp at h
  · intro _ _ _ _ _ h
    simp at h
  · intro _ _ _ _ _ h
    simp at h
  · intro _ _ _ _ _ h hm
    simp only [List.mem_cons, reduceCtorEq, false_or] at hm
    exact cli_exchange_running ⟨env.id, env.mr, env.send_mr, 0⟩ env r s h hm
  · intro _ _ _ _ h hm
    simp only [List.mem_cons, reduceCtorEq, false_or] at hm
    exact cli_exchange_running ⟨env.id, env.mr, 0, IBV_SEND_INLINE⟩ env r s h hm

theorem cli_run_zero_of_success (env : Env)
    (hf : ∀ e, e ∈ (run env).trace → failed e = false) (r : Int) (s : Nat) (hr : 0 < r)
    (hm : Event.get_recv_comp env.id r s ∈ (run env).trace) :
    (run env).outcome = Outcome.exit 0 := by
  rcases cli_run_agree env with ⟨_, h0 | hrun⟩ | ⟨hany, _⟩
  · exact h0
  · have := cli_run_running env r s hrun hm
    omega
  · obtain ⟨e, he, hfe⟩ := List.any_eq_true.mp hany
    rw [hf e he] at hfe
    cases hfe

end Client

namespace Server
open Cm

/-- While `run` is still in a wait loop no send completion wait has returned
anything but `0`. -/
theorem srv_exchange_running (g : Globals) (env : Env) (r : Int) (s : Nat)
    (h : (exchange g env).outcome = Outcome.running)
    (hm : Event.get_send_comp g.id r s ∈ (exchange g env).trace) : r = 0 := by
  have W1 := not_mem_of_all_ne (Event.get_send_comp g.id r s) _
    (waitComp_all (fun x => decide (x ≠ Event.get_send_comp g.id r s))
      (Event.get_recv_comp g.id) (by simp) env.recv_comp)
  revert h hm
  apply srv_exchange_cases g env (fun res => res.outcome = Outcome.running →
    Event.get_send_comp g.id r s ∈ res.trace → r = 0)
  · intro _ h
    simp at h
  · intro _ _ h
    simp at h
  · intro _ _ _ _ hm
    simp [W1] at hm
  · intro _ _ _ _ _ h
    simp at h
  · intro _ _ _ _ _ _ h
    simp at h
  · intro _ _ ret _ _ _ hw2 _ hm
    simp only [List.mem_cons, reduceCtorEq, false_or, List.mem_append, W1] at hm
    obtain ⟨s2, he⟩ := waitComp_none _ _ hw2 _ hm
    simp only [Event.get_send_comp.injEq] at he
    exact he.2.1
  · intro _ _ _ _ _ _ _ _ h
    simp at h

theorem srv_run_running (env : Env) (r : Int) (s : Nat)
    (h : (run env).outcome = Outcome.running)
    (hm : Event.get_send_comp env.id r s ∈ (run env).trace) : r = 0 := by
  revert h hm
  apply srv_run_cases env (fun res => res.outcome = Outcome.running →
    Event.get_send_comp env.id r s ∈ res.trace → r = 0)
  · intro _ h
    simp at h
  · intro _ _ h
    simp at h
  · intro _ _ _ _ _ _ _ h
    simp at h
  · intro _ _ _ _ _ _ _ _ h
    simp at h
  · intro _ _ _ _ _ _ _ _ h
    simp at h
  · intro _ _ _ _ _ _ _ _ h
    simp at h
  · intro _ _ _ _ _ _ _ _ h
    simp at h
  · intro _ _ _ _ _ _ _ _ h hm
    simp only [List.mem_cons, reduceCtorEq, false_or] at hm
    exact srv_exchange_running ⟨env.listen_id, env.id, env.mr, env.send_mr, 0⟩ env r s h hm
  · intro _ _ _ _ _ _ _ h hm
    simp only [List.mem_cons, reduceCtorEq, false_or] at hm
    exact srv_exchange_running ⟨env.listen_id, env.id, env.mr, 0, IBV_SEND_INLINE⟩ env r s h hm

theorem srv_run_zero_of_success (env : Env)
    (hf : ∀ e, e ∈ (run env).trace → failed e = false) (r : Int) (s : Nat) (hr : 0 < r)
    (hm : Event.get_send_comp env.id r s ∈ (run env).trace) :
    (run env).outcome = Outcome.exit 0 := by
  rcases srv_run_agree env with ⟨_, h0 | hrun⟩ | ⟨hany, _⟩
  · exact h0
  · have := srv_run_running env r s hrun hm
    omega
  · obtain ⟨e, he, hfe⟩ := List.any_eq_true.mp hany
    rw [hf e he] at hfe
    cases hfe

end Server

/-! ## The passes of the receive loop -/

namespace BasicRecv

theorem passes_ne_nil (l : List Event) : passes l ≠ [] := by
  cases l with
  | nil => simp [passes]
  | cons e es =>
    unfold passes
    split <;> simp

end BasicRecv

/-! ## Bridges from the Boolean checks -/

namespace Cm

theorem agree_spec (r : Result) (h : Agree r) :
    (r.outcome = Outcome.exit 0 ↔
      ((∃ c, r.outcome = Outcome.exit c) ∧ ∀ e, e ∈ r.trace → failed e = false))
    ∧ ((∃ e, e ∈ r.trace ∧ failed e = true) → ∃ c, c ≠ 0 ∧ r.outcome = Outcome.exit c) := by
  rcases h with ⟨hf, ho⟩ | ⟨hf, c, hc, ho⟩
  · have hall : ∀ e, e ∈ r.trace → failed e = false := by
      intro e he
      cases hfe : failed e with
      | false => rfl
      | true =>
        have : r.trace.any failed = true := List.any_eq_true.mpr ⟨e, he, hfe⟩
        rw [hf] at this
        cases this
    refine ⟨⟨fun h0 => ⟨⟨0, h0⟩, hall⟩, ?_⟩, ?_⟩
    · rintro ⟨⟨c, hc⟩, _⟩
      rcases ho with ho | ho
      · exact ho
      · rw [ho] at hc
        cases hc
    · rintro ⟨e, he, hfe⟩
      rw [hall e he] at hfe
      cases hfe
  · obtain ⟨e, he, hfe⟩ := List.any_eq_true.mp hf
    refine ⟨⟨?_, ?_⟩, fun _ => ⟨c, hc, ho⟩⟩
    · intro h0
      rw [ho] at h0
      simp only [Outcome.exit.injEq] at h0
      exact absurd h0 hc
    · rintro ⟨_, hall⟩
      rw [hall e he] at hfe
      cases hfe

theorem isRecvPosted_spec (id : Nat) (x : Event) (h : isRecvPosted id x = true) :
    ∃ mr, x = Event.post_recv id Buf.recv_msg 16 mr 0 := by
  cases x with
  | post_recv i buf len mr ret =>
    cases buf with
    | send_msg => simp [isRecvPosted] at h
    | recv_msg =>
      simp only [isRecvPosted, Bool.and_eq_true, decide_eq_true_eq] at h
      obtain ⟨⟨rfl, rfl⟩, rfl⟩ := h
      exact ⟨mr, rfl⟩
  | _ => simp [isRecvPosted] at h

theorem isSendReg_spec (mr : Nat) (x : Event) (h : isSendReg mr x = true) :
    mr ≠ 0 ∧ ∃ id, x = Event.reg_msgs id Buf.send_msg 16 mr := by
  cases x with
  | reg_msgs i buf len m =>
    cases buf with
    | recv_msg => simp [isSendReg] at h
    | send_msg =>
      simp only [isSendReg, Bool.and_eq_true, decide_eq_true_eq] at h
      obtain ⟨⟨rfl, rfl⟩, h0⟩ := h
      exact ⟨h0, i, rfl⟩
  | _ => simp [isSendReg] at h

/-- What the two checks on sends give for one send of a trace. -/
theorem send_spec (tr : List Event) (cap sm : Nat)
    (hs : tr.all (sendIs (if 16 ≤ cap then 0 else sm)
      (if 16 ≤ cap then IBV_SEND_INLINE else 0)) = true)
    (hb : ∀ mr, beforeB (isSendReg mr) (isSgeSend mr) tr = true)
    (id : Nat) (buf : Buf) (len mr flags : Nat) (ret : Int)
    (h : Event.post_send id buf len mr flags ret ∈ tr) :
    buf = Buf.send_msg ∧ len = 16
    ∧ (flags &&& IBV_SEND_INLINE ≠ 0 → 16 ≤ cap)
    ∧ (cap < 16 → flags &&& IBV_SEND_INLINE = 0 ∧ mr ≠ 0) := by
  have h1 := List.all_eq_true.mp hs _ h
  simp only [sendIs, Bool.and_eq_true, decide_eq_true_eq] at h1
  obtain ⟨⟨⟨hbuf, hlen⟩, hmr⟩, hfl⟩ := h1
  refine ⟨hbuf, hlen, ?_, ?_⟩
  · intro hne
    by_contra hcap
    rw [if_neg hcap] at hfl
    rw [hfl] at hne
    exact hne (by decide)
  · intro hcap
    have hcap2 : ¬ 16 ≤ cap := Nat.not_le.mpr hcap
    rw [if_neg hcap2] at hfl
    have hz : flags &&& IBV_SEND_INLINE = 0 := by
      rw [hfl]
      decide
    refine ⟨hz, ?_⟩
    obtain ⟨pre, post, hsplit⟩ := List.append_of_mem h
    obtain ⟨x, _, hx⟩ := before_of_beforeB _ _ tr (hb mr) pre _ post hsplit
      (by simp [isSgeSend, hz])
    exact (isSendReg_spec mr x hx).1

end Cm

/-! ## The claims -/

/-- C1, evaluated on the code: when the device `mlx5_0` is found and
`ibv_open_device` returns `NULL`, `main` of `basic_recv` frees the device list and
returns `0`, not `1`. -/
theorem basic_recv_open_failure_exits_zero :
    BasicRecv.main BasicRecv.envOpenFails
      = ⟨[BasicRecv.Event.get_device_list true, BasicRecv.Event.open_device 0 false,
          BasicRecv.Event.free_device_list], Outcome.exit 0⟩ := by
  decide

/-- C2: in `rdma_client` and `rdma_server`, `run` returns `0` exactly when no call it
made failed and both completion waits returned a positive count: the trace of such
a run ends in `return 0`, with no assumption that `run` returns.  Further, `run`
returns `0` exactly when it returns and no call it made failed; a failed call makes
`run` return a value other than `0`; and no post, connect or accept follows a
failed call. -/
theorem run_zero_iff_all_calls_succeeded :
    (∀ env : Client.Env,
      ((Client.run env).outcome = Outcome.exit 0 ↔
        ((∀ e, e ∈ (Client.run env).trace → Cm.failed e = false)
          ∧ (∃ r s, 0 < r ∧ Cm.Event.get_send_comp env.id r s ∈ (Client.run env).trace)
          ∧ (∃ r s, 0 < r ∧ Cm.Event.get_recv_comp env.id r s ∈ (Client.run env).trace)))
      ∧ ((Client.run env).outcome = Outcome.exit 0 ↔
        ((∃ c, (Client.run env).outcome = Outcome.exit c)
          ∧ ∀ e, e ∈ (Client.run env).trace → Cm.failed e = false))
      ∧ ((∃ e, e ∈ (Client.run env).trace ∧ Cm.failed e = true) →
          ∃ c, c ≠ 0 ∧ (Client.run env).outcome = Outcome.exit c)
      ∧ NeverAfter (fun e => Cm.failed e = true) (fun e => Cm.isAction e = true)
          (Client.run env).trace)
    ∧ (∀ env : Server.Env,
      ((Server.run env).outcome = Outcome.exit 0 ↔
        ((∀ e, e ∈ (Server.run env).trace → Cm.failed e = false)
          ∧ (∃ r s, 0 < r ∧ Cm.Event.get_send_comp env.id r s ∈ (Server.run env).trace)
          ∧ (∃ r s, 0 < r ∧ Cm.Event.get_recv_comp env.id r s ∈ (Server.run env).trace)))
      ∧ ((Server.run env).outcome = Outcome.exit 0 ↔
        ((∃ c, (Server.run env).outcome = Outcome.exit c)
          ∧ ∀ e, e ∈ (Server.run env).trace → Cm.failed e = false))
      ∧ ((∃ e, e ∈ (Server.run env).trace ∧ Cm.failed e = true) →
          ∃ c, c ≠ 0 ∧ (Server.run env).outcome = Outcome.exit c)
      ∧ NeverAfter (fun e => Cm.failed e = true) (fun e => Cm.isAction e = true)
          (Server.run env).trace) := by
  constructor
  · intro env
    have h := Cm.agree_spec _ (Client.cli_run_agree env)
    refine ⟨⟨fun h0 => ⟨(h.1.mp h0).2, Client.cli_run_positive env h0⟩, ?_⟩, h.1, h.2,
      neverAfter_of_neverAfterB _ _ _ (Client.cli_run_neverAfter env)⟩
    rintro ⟨hf, _, r, s, hr, hm⟩
    exact Client.cli_run_zero_of_success env hf r s hr hm
  · intro env
    have h := Cm.agree_spec _ (Server.srv_run_agree env)
    refine ⟨⟨fun h0 => ⟨(h.1.mp h0).2, Server.srv_run_positive env h0⟩, ?_⟩, h.1, h.2,
      neverAfter_of_neverAfterB _ _ _ (Server.srv_run_neverAfter env)⟩
    rintro ⟨hf, ⟨r, s, hr, hm⟩, _⟩
    exact Server.srv_run_zero_of_success env hf r s hr hm

/-- C2 at work: a client all of whose calls succeed, the send wait returning `0` once
and then `1`, the receive wait `1`, returns `0`; a client whose `rdma_connect`
returns `-1` returns a value other than `0`. -/
theorem run_zero_iff_all_calls_succeeded_witness :
    ((∀ e, e ∈ (Client.run (Client.envInline [⟨0, 0⟩, ⟨1, 0⟩] [⟨1, 0⟩])).trace →
        Cm.failed e = false)
      ∧ (Client.run (Client.envInline [⟨0, 0⟩, ⟨1, 0⟩] [⟨1, 0⟩])).outcome = Outcome.exit 0)
    ∧ (∃ e, e ∈ (Client.run { Client.envInline [] [] with connect := -1 }).trace
        ∧ Cm.failed e = true)
    ∧ ∃ c, c ≠ 0
        ∧ (Client.run { Client.envInline [] [] with connect := -1 }).outcome = Outcome.exit c :=
  ⟨⟨by decide,
      (run_zero_iff_all_calls_succeeded.1 (Client.envInline [⟨0, 0⟩, ⟨1, 0⟩] [⟨1, 0⟩])).1.mpr
        ⟨by decide, ⟨1, 0, by decide, by decide⟩, ⟨1, 0, by decide, by decide⟩⟩⟩,
    ⟨Cm.Event.connect 5 (-1), by decide, by decide⟩,
    (run_zero_iff_all_calls_succeeded.1 { Client.envInline [] [] with connect := -1 }).2.2.1
      ⟨Cm.Event.connect 5 (-1), by decide, by decide⟩⟩

/-- C3: in every execution of the client's `run`, each `rdma_connect` on an
identifier comes after a successful `rdma_post_recv` of the 16 bytes of `recv_msg`
on the same identifier; the same holds for each `rdma_accept` in the server's
`run`. -/
theorem recv_posted_before_handshake :
    (∀ (env : Client.Env) (id : Nat),
      Before (fun x => ∃ mr, x = Cm.Event.post_recv id Cm.Buf.recv_msg 16 mr 0)
        (fun e => ∃ ret, e = Cm.Event.connect id ret) (Client.run env).trace)
    ∧ (∀ (env : Server.Env) (id : Nat),
      Before (fun x => ∃ mr, x = Cm.Event.post_recv id Cm.Buf.recv_msg 16 mr 0)
        (fun e => ∃ ret, e = Cm.Event.accept id ret) (Server.run env).trace) := by
  constructor
  · intro env id
    refine Before.mono (before_of_beforeB _ _ _ (Client.cli_run_before env id))
      (Cm.isRecvPosted_spec id) ?_
    rintro e ⟨ret, rfl⟩
    simp [Cm.isConnect]
  · intro env id
    refine Before.mono (before_of_beforeB _ _ _ (Server.srv_run_before env id))
      (Cm.isRecvPosted_spec id) ?_
    rintro e ⟨ret, rfl⟩
    simp [Cm.isAccept]

/-- C4, evaluated on the code: with every set-up call succeeding, `main` of
`basic_recv` requests the transition to RTR before it posts its first receive. -/
theorem basic_recv_rtr_requested_before_first_post :
    (BasicRecv.main (BasicRecv.envUp [⟨[0], []⟩])).trace
      = [BasicRecv.Event.get_device_list true, BasicRecv.Event.open_device 0 true,
         BasicRecv.Event.alloc_pd true, BasicRecv.Event.reg_mr 0x1800 true,
         BasicRecv.Event.create_cq 0x100 true, BasicRecv.Event.create_qp 0x10 true,
         BasicRecv.Event.modify_qp BasicRecv.QpState.INIT 0,
         BasicRecv.Event.modify_qp BasicRecv.QpState.RTR 0,
         BasicRecv.Event.post_recv ⟨0, ⟨0, 256, 7⟩, 1⟩ 0] := by
  decide

/-- C6 as stated fails: when the first completion polled names request 3, `main` of
`basic_recv` prints from offset 40, the slice of request 0, not from
`256 * 3 + 40`. -/
theorem report_slice_not_by_request_id :
    (3, 40) ∈ BasicRecv.reports (BasicRecv.main (BasicRecv.envUp [BasicRecv.roundReversed])).trace
    ∧ (40 : Nat) ≠ 256 * 3 + 40 := by
  decide

/-- C6 amended: in the poll loop of `basic_recv` the `k`-th successful completion of
a pass is reported from offset `256 * k + 40` whatever request id it carries, and
`k < 4`; that is the slice of the request the entry names exactly when the request
id is `k`. -/
theorem report_slice_by_arrival_order (ps : List BasicRecv.PollResp) (k : Nat) (p : Nat × Nat)
    (h : (BasicRecv.reports (BasicRecv.pollCqs 0 ps).1)[k]? = some p) :
    k < 4 ∧ p.2 = 256 * k + 40 ∧ (p.2 = 256 * p.1 + 40 ↔ p.1 = k) := by
  obtain ⟨h1, h2⟩ := BasicRecv.pollCqs_reports ps 0 k p h
  rw [Nat.zero_add] at h1 h2
  simp only [BasicRecv.MAX_MSG_SIZE] at h2
  refine ⟨h1, h2, ?_⟩
  rw [h2]
  omega

/-- C6 amended at work: with the completions in the order 3, 2, 1, 0 the first
report names request 3 and reads offset 40. -/
theorem report_slice_by_arrival_order_witness :
    (BasicRecv.reports (BasicRecv.pollCqs 0 BasicRecv.roundReversed.polls).1)[0]? = some (3, 40)
    ∧ 0 < 4 ∧ (3, 40).2 = 256 * 0 + 40 ∧ ((3, 40).2 = 256 * (3, 40).1 + 40 ↔ (3, 40).1 = 0) :=
  ⟨by decide, report_slice_by_arrival_order BasicRecv.roundReversed.polls 0 (3, 40) (by decide)⟩

/-- C7 as stated fails: the client's send completion wait returns one entry with
status 12 and `run` still returns `0`. -/
theorem client_returns_zero_after_error_completion :
    Cm.Event.get_send_comp 5 1 12 ∈ (Client.run (Client.envInline [⟨1, 12⟩] [⟨1, 0⟩])).trace
    ∧ Cm.badCompletion (Cm.Event.get_send_comp 5 1 12) = true
    ∧ (Client.run (Client.envInline [⟨1, 12⟩] [⟨1, 0⟩])).outcome = Outcome.exit 0 := by
  decide

/-- C7 amended: in `rdma_client` and `rdma_server`, when a completion wait returns a
negative value `run` returns a value other than `0`; the status of a retrieved
entry is not looked at: `run` returns what it returns when every entry has status
success. -/
theorem run_return_ignores_completion_status :
    (∀ env : Client.Env,
      (∀ id r s, (Cm.Event.get_send_comp id r s ∈ (Client.run env).trace
            ∨ Cm.Event.get_recv_comp id r s ∈ (Client.run env).trace) → r < 0 →
          ∃ c, c ≠ 0 ∧ (Client.run env).outcome = Outcome.exit c)
      ∧ (Client.run (Client.clearStatus env)).outcome = (Client.run env).outcome)
    ∧ (∀ env : Server.Env,
      (∀ id r s, (Cm.Event.get_send_comp id r s ∈ (Server.run env).trace
            ∨ Cm.Event.get_recv_comp id r s ∈ (Server.run env).trace) → r < 0 →
          ∃ c, c ≠ 0 ∧ (Server.run env).outcome = Outcome.exit c)
      ∧ (Server.run (Server.clearStatus env)).outcome = (Server.run env).outcome) := by
  constructor
  · intro env
    refine ⟨?_, Client.cli_run_outcome_clear env⟩
    intro id r s hm hr
    apply (Cm.agree_spec _ (Client.cli_run_agree env)).2
    rcases hm with hm | hm
    · exact ⟨_, hm, by simp [Cm.failed, hr]⟩
    · exact ⟨_, hm, by simp [Cm.failed, hr]⟩
  · intro env
    refine ⟨?_, Server.srv_run_outcome_clear env⟩
    intro id r s hm hr
    apply (Cm.agree_spec _ (Server.srv_run_agree env)).2
    rcases hm with hm | hm
    · exact ⟨_, hm, by simp [Cm.failed, hr]⟩
    · exact ⟨_, hm, by simp [Cm.failed, hr]⟩

/-- C7 amended at work: the server's receive completion wait returns `-1` and `run`
returns a value other than `0`. -/
theorem run_return_ignores_completion_status_witness :
    Cm.Event.get_recv_comp 5 (-1) 0 ∈ (Server.run (Server.envInline [⟨-1, 0⟩] [])).trace
    ∧ ∃ c, c ≠ 0 ∧ (Server.run (Server.envInline [⟨-1, 0⟩] [])).outcome = Outcome.exit c :=
  ⟨by decide,
    (run_return_ignores_completion_status.2 (Server.envInline [⟨-1, 0⟩] [])).1 5 (-1) 0
      (Or.inr (by decide)) (by decide)⟩

/-- C8: every send that `run` of `rdma_client` or of `rdma_server` posts is the 16
bytes of `send_msg`; it carries `IBV_SEND_INLINE` only if the reported
`max_inline_data` is at least 16; when that value is below 16 the send carries no
inline flag and names a region other than `NULL`; and every send without the inline
flag comes after a registration of the 16 bytes of `send_msg` that returned the
region it names. -/
theorem send_inline_only_within_capability :
    (∀ env : Client.Env,
      (∀ id buf len mr flags ret,
          Cm.Event.post_send id buf len mr flags ret ∈ (Client.run env).trace →
          buf = Cm.Buf.send_msg ∧ len = 16
          ∧ (flags &&& Cm.IBV_SEND_INLINE ≠ 0 → 16 ≤ env.max_inline_data)
          ∧ (env.max_inline_data < 16 → flags &&& Cm.IBV_SEND_INLINE = 0 ∧ mr ≠ 0))
      ∧ ∀ mr, Before (fun x => mr ≠ 0 ∧ ∃ id, x = Cm.Event.reg_msgs id Cm.Buf.send_msg 16 mr)
          (fun e => ∃ id buf len flags ret, e = Cm.Event.post_send id buf len mr flags ret
            ∧ flags &&& Cm.IBV_SEND_INLINE = 0) (Client.run env).trace)
    ∧ (∀ env : Server.Env,
      (∀ id buf len mr flags ret,
          Cm.Event.post_send id buf len mr flags ret ∈ (Server.run env).trace →
          buf = Cm.Buf.send_msg ∧ len = 16
          ∧ (flags &&& Cm.IBV_SEND_INLINE ≠ 0 → 16 ≤ env.max_inline_data)
          ∧ (env.max_inline_data < 16 → flags &&& Cm.IBV_SEND_INLINE = 0 ∧ mr ≠ 0))
      ∧ ∀ mr, Before (fun x => mr ≠ 0 ∧ ∃ id, x = Cm.Event.reg_msgs id Cm.Buf.send_msg 16 mr)
          (fun e => ∃ id buf len flags ret, e = Cm.Event.post_send id buf len mr flags ret
            ∧ flags &&& Cm.IBV_SEND_INLINE = 0) (Server.run env).trace) := by
  constructor
  · intro env
    refine ⟨Cm.send_spec _ _ _ (Client.cli_run_sendIs env) (Client.cli_run_before_sge env), ?_⟩
    intro mr
    refine Before.mono (before_of_beforeB _ _ _ (Client.cli_run_before_sge env mr))
      (Cm.isSendReg_spec mr) ?_
    rintro e ⟨id, buf, len, flags, ret, rfl, hz⟩
    simp [Cm.isSgeSend, hz]
  · intro env
    refine ⟨Cm.send_spec _ _ _ (Server.srv_run_sendIs env) (Server.srv_run_before_sge env), ?_⟩
    intro mr
    refine Before.mono (before_of_beforeB _ _ _ (Server.srv_run_before_sge env mr))
      (Cm.isSendReg_spec mr) ?_
    rintro e ⟨id, buf, len, flags, ret, rfl, hz⟩
    simp [Cm.isSgeSend, hz]

/-- C8 at work: a client whose device reports no inline data posts its send without
the inline flag, naming the region 10 it registered. -/
theorem send_inline_only_within_capability_witness :
    Cm.Event.post_send 5 Cm.Buf.send_msg 16 10 0 0 ∈ (Client.run (Client.envSge 0 [] [])).trace
    ∧ (Client.envSge 0 [] []).max_inline_data < 16
    ∧ 0 &&& Cm.IBV_SEND_INLINE = 0 ∧ 10 ≠ 0 :=
  ⟨by decide, by decide,
    ((send_inline_only_within_capability.1 (Client.envSge 0 [] [])).1 5 Cm.Buf.send_msg 16 10 0 0
      (by decide)).2.2.2 (by decide)⟩

/-- C9, evaluated on the code: when every set-up call succeeds and the first
`ibv_post_recv` returns 12, `main` of `basic_recv` returns `1` having created six
resources and destroyed none. -/
theorem basic_recv_post_failure_returns_without_cleanup :
    (BasicRecv.main (BasicRecv.envUp [⟨[12], []⟩])).outcome = Outcome.exit 1
    ∧ (BasicRecv.main (BasicRecv.envUp [⟨[12], []⟩])).trace.filterMap BasicRecv.created
        = [BasicRecv.Res.dev_list, BasicRecv.Res.context, BasicRecv.Res.pd, BasicRecv.Res.mr,
           BasicRecv.Res.cq, BasicRecv.Res.qp]
    ∧ (BasicRecv.main (BasicRecv.envUp [⟨[12], []⟩])).trace.filterMap BasicRecv.destroyed = [] := by
  decide

/-- C10: in every execution of the three programs each destruction hits the most
recently created resource that is still alive, and the resources destroyed are, in
order, an end piece of: queue pair, completion queue, memory region, protection
domain, device context, device list in `basic_recv`; send region, receive region,
endpoint, address info in `rdma_client`; send region, receive region, accepted
endpoint, listening endpoint, address info in `rdma_server`. -/
theorem resources_destroyed_in_reverse_order :
    (∀ env : BasicRecv.Env,
      lifo BasicRecv.created BasicRecv.destroyed [] (BasicRecv.main env).trace = true
      ∧ (BasicRecv.main env).trace.filterMap BasicRecv.destroyed
          <:+ [BasicRecv.Res.qp, BasicRecv.Res.cq, BasicRecv.Res.mr, BasicRecv.Res.pd,
               BasicRecv.Res.context, BasicRecv.Res.dev_list])
    ∧ (∀ env : Client.Env,
      lifo Cm.created Cm.destroyed [] (Client.run env).trace = true
      ∧ (Client.run env).trace.filterMap Cm.destroyed
          <:+ [Cm.Res.mr env.send_mr, Cm.Res.mr env.mr, Cm.Res.ep env.id, Cm.Res.addrinfo])
    ∧ (∀ env : Server.Env,
      lifo Cm.created Cm.destroyed [] (Server.run env).trace = true
      ∧ (Server.run env).trace.filterMap Cm.destroyed
          <:+ [Cm.Res.mr env.send_mr, Cm.Res.mr env.mr, Cm.Res.ep env.id,
               Cm.Res.ep env.listen_id, Cm.Res.addrinfo]) :=
  ⟨fun env => ⟨BasicRecv.main_lifo env, BasicRecv.main_destroyed env⟩,
    fun env => ⟨Client.cli_run_lifo env, Client.cli_run_destroyed env⟩,
    fun env => ⟨Server.srv_run_lifo env, Server.srv_run_destroyed env⟩⟩

/-! ## Release of the acquired resources -/

namespace Client
open Cm

theorem cli_exchange_created (g : Globals) (env : Env) :
    (exchange g env).trace.filterMap created = [] := by
  have A1 := filterMap_nil_of_all created _
    (cli_all_out_dereg_send (fun x => (created x).isNone) g (fun _ => rfl) (fun _ => rfl) rfl)
  have A2 := filterMap_nil_of_all created _
    (cli_all_out_disconnect (fun x => (created x).isNone) g (fun _ => rfl) (fun _ => rfl)
      (fun _ => rfl) rfl)
  have W1 := filterMap_nil_of_all created _
    (waitComp_all (fun x => (created x).isNone) (Event.get_send_comp g.id) (fun _ _ => rfl)
      env.send_comp)
  have W2 := filterMap_nil_of_all created _
    (waitComp_all (fun x => (created x).isNone) (Event.get_recv_comp g.id) (fun _ _ => rfl)
      env.recv_comp)
  apply cli_exchange_cases g env (fun r => r.trace.filterMap created = []) <;> intros <;>
    simp [List.filterMap_cons, List.filterMap_append, created, A1, A2, W1, W2]

theorem cli_exchange_released (g : Globals) (env : Env)
    (h : ∃ c, (exchange g env).outcome = Outcome.exit c) :
    (exchange g env).trace.filterMap destroyed = (out_dereg_send g).filterMap destroyed := by
  have n1 := filterMap_destroyed_nil _
    (waitComp_neutral (Event.get_send_comp g.id) (fun _ _ => ⟨rfl, rfl⟩) env.send_comp)
  have n2 := filterMap_destroyed_nil _
    (waitComp_neutral (Event.get_recv_comp g.id) (fun _ _ => ⟨rfl, rfl⟩) env.recv_comp)
  revert h
  apply cli_exchange_cases g env (fun r => (∃ c, r.outcome = Outcome.exit c) →
    r.trace.filterMap destroyed = (out_dereg_send g).filterMap destroyed) <;> intros <;>
    first
    | (rename_i h
       simp at h
       done)
    | simp [List.filterMap_cons, List.filterMap_append, destroyed, n1, n2, out_disconnect]

theorem cli_run_released (env : Env) (h : ∃ c, (run env).outcome = Outcome.exit c) :
    (run env).trace.filterMap destroyed = ((run env).trace.filterMap created).reverse := by
  revert h
  apply cli_run_cases env (fun r => (∃ c, r.outcome = Outcome.exit c) →
    r.trace.filterMap destroyed = (r.trace.filterMap created).reverse)
  · intro h1 _
    simp [created, destroyed, h1]
  · intro h1 h2 _
    simp [created, destroyed, h1, h2, out_free_addrinfo]
  · intro h1 h2 h3 sm sf _
    simp [created, destroyed, h1, h2, h3, out_free_addrinfo, out_destroy_ep]
  · intro h1 h2 h3 h4 h5 _
    simp [created, destroyed, h1, h2, h3, h5, out_free_addrinfo, out_destroy_ep,
      out_dereg_recv]
  · intro h1 h2 h3 h4 h5 h
    have hr := cli_exchange_released _ env h
    have hc := cli_exchange_created ⟨env.id, env.mr, env.send_mr, 0⟩ env
    simp [List.filterMap_cons, created, destroyed, h1, h2, h3, h5, hr, hc, out_free_addrinfo,
      out_destroy_ep, out_dereg_recv, out_dereg_send]
  · intro h1 h2 h3 h4 h
    have hr := cli_exchange_released _ env h
    have hc := cli_exchange_created ⟨env.id, env.mr, 0, IBV_SEND_INLINE⟩ env
    simp only [List.filterMap_cons, created, h1, h2, h3, hr, hc, if_true, if_false]
    simp [destroyed, out_free_addrinfo, out_destroy_ep, out_dereg_recv, out_dereg_send,
      IBV_SEND_INLINE]

theorem cli_exchange_disconnect (g : Globals) (env : Env) (id : Nat) :
    (Event.disconnect id ∈ (exchange g env).trace → Event.connect id 0 ∈ (exchange g env).trace)
    ∧ ((∃ c, (exchange g env).outcome = Outcome.exit c) →
        Event.connect id 0 ∈ (exchange g env).trace →
        Event.disconnect id ∈ (exchange g env).trace) := by
  have A1 := not_mem_of_all_ne (Event.disconnect id) _
    (cli_all_out_dereg_send (fun x => decide (x ≠ Event.disconnect id)) g
      (by simp) (by simp) (by simp))
  have A2 := not_mem_of_all_ne (Event.connect id 0) _
    (cli_all_out_dereg_send (fun x => decide (x ≠ Event.connect id 0)) g
      (by simp) (by simp) (by simp))
  have A3 := not_mem_of_all_ne (Event.connect id 0) _
    (cli_all_out_disconnect (fun x => decide (x ≠ Event.connect id 0)) g
      (by simp) (by simp) (by simp) (by simp))
  have W1 := not_mem_of_all_ne (Event.disconnect id) _
    (waitComp_all (fun x => decide (x ≠ Event.disconnect id)) (Event.get_send_comp g.id)
      (by simp) env.send_comp)
  have W2 := not_mem_of_all_ne (Event.disconnect id) _
    (waitComp_all (fun x => decide (x ≠ Event.disconnect id)) (Event.get_recv_comp g.id)
      (by simp) env.recv_comp)
  have W3 := not_mem_of_all_ne (Event.connect id 0) _
    (waitComp_all (fun x => decide (x ≠ Event.connect id 0)) (Event.get_send_comp g.id)
      (by simp) env.send_comp)
  have W4 := not_mem_of_all_ne (Event.connect id 0) _
    (waitComp_all (fun x => decide (x ≠ Event.connect id 0)) (Event.get_recv_comp g.id)
      (by simp) env.recv_comp)
  apply cli_exchange_cases g env (fun r =>
    (Event.disconnect id ∈ r.trace → Event.connect id 0 ∈ r.trace)
    ∧ ((∃ c, r.outcome = Outcome.exit c) → Event.connect id 0 ∈ r.trace →
        Event.disconnect id ∈ r.trace))
  · intro h1
    simp [A1, A2]
  · intro h1 h2
    simp only [List.mem_cons, reduceCtorEq, false_or, Event.connect.injEq, A1, A2, or_false]
    refine ⟨fun h => absurd h (by simp), fun _ h => absurd h.2.symm h2⟩
  · intro h1 h2 h3
    simp [out_disconnect, A1, A2, A3, h2]
  · intro h1 h2 h3 hw
    simp [W1, W3, h2]
  · intro h1 h2 h3 ret hw hret
    simp [out_disconnect, A1, A2, A3, W1, W3, h2]
  · intro h1 h2 h3 ret hw hret hw2
    simp [W1, W2, W3, W4, h2]
  · intro h1 h2 h3 ret hw hret ret2 hw2
    simp [out_disconnect, A1, A2, A3, W1, W2, W3, W4, h2]

theorem cli_run_disconnect (env : Env) (id : Nat) :
    (Event.disconnect id ∈ (run env).trace → Event.connect id 0 ∈ (run env).trace)
    ∧ ((∃ c, (run env).outcome = Outcome.exit c) → Event.connect id 0 ∈ (run env).trace →
        Event.disconnect id ∈ (run env).trace) := by
  apply cli_run_cases env (fun r =>
    (Event.disconnect id ∈ r.trace → Event.connect id 0 ∈ r.trace)
    ∧ ((∃ c, r.outcome = Outcome.exit c) → Event.connect id 0 ∈ r.trace →
        Event.disconnect id ∈ r.trace))
  · intro h1
    simp
  · intro h1 h2
    simp [out_free_addrinfo]
  · intro h1 h2 h3 sm sf
    simp [out_free_addrinfo, out_destroy_ep]
  · intro h1 h2 h3 h4 h5
    simp [out_free_addrinfo, out_destroy_ep, out_dereg_recv]
  · intro h1 h2 h3 h4 h5
    simpa using cli_exchange_disconnect ⟨env.id, env.mr, env.send_mr, 0⟩ env id
  · intro h1 h2 h3 h4
    simpa using cli_exchange_disconnect ⟨env.id, env.mr, 0, IBV_SEND_INLINE⟩ env id

end Client

namespace Server
open Cm

theorem srv_exchange_created (g : Globals) (env : Env) :
    (exchange g env).trace.filterMap created = [] := by
  have A1 := filterMap_nil_of_all created _
    (srv_all_out_dereg_send (fun x => (created x).isNone) g (fun _ => rfl) (fun _ => rfl) rfl)
  have A2 := filterMap_nil_of_all created _
    (srv_all_out_disconnect (fun x => (created x).isNone) g (fun _ => rfl) (fun _ => rfl)
      (fun _ => rfl) rfl)
  have W1 := filterMap_nil_of_all created _
    (waitComp_all (fun x => (created x).isNone) (Event.get_send_comp g.id) (fun _ _ => rfl)
      env.send_comp)
  have W2 := filterMap_nil_of_all created _
    (waitComp_all (fun x => (created x).isNone) (Event.get_recv_comp g.id) (fun _ _ => rfl)
      env.recv_comp)
  apply srv_exchange_cases g env (fun r => r.trace.filterMap created = []) <;> intros <;>
    simp [List.filterMap_cons, List.filterMap_append, created, A1, A2, W1, W2]

theorem srv_exchange_released (g : Globals) (env : Env)
    (h : ∃ c, (exchange g env).outcome = Outcome.exit c) :
    (exchange g env).trace.filterMap destroyed = (out_dereg_send g).filterMap destroyed := by
  have n1 := filterMap_destroyed_nil _
    (waitComp_neutral (Event.get_send_comp g.id) (fun _ _ => ⟨rfl, rfl⟩) env.send_comp)
  have n2 := filterMap_destroyed_nil _
    (waitComp_neutral (Event.get_recv_comp g.id) (fun _ _ => ⟨rfl, rfl⟩) env.recv_comp)
  revert h
  apply srv_exchange_cases g env (fun r => (∃ c, r.outcome = Outcome.exit c) →
    r.trace.filterMap destroyed = (out_dereg_send g).filterMap destroyed) <;> intros <;>
    first
    | (rename_i h
       simp at h
       done)
    | simp [List.filterMap_cons, List.filterMap_append, destroyed, n1, n2, out_disconnect]

theorem srv_run_released (env : Env) (h : ∃ c, (run env).outcome = Outcome.exit c) :
    (run env).trace.filterMap destroyed = ((run env).trace.filterMap created).reverse := by
  revert h
  apply srv_run_cases env (fun r => (∃ c, r.outcome = Outcome.exit c) →
    r.trace.filterMap destroyed = (r.trace.filterMap created).reverse)
  · intro h1 _
    simp [created, destroyed, h1]
  · intro h1 h2 _
    simp [created, destroyed, h1, h2, out_free_addrinfo]
  · intro h1 h2 h3 i m sm sf _
    simp [created, destroyed, h1, h2, h3, out_free_addrinfo, out_destroy_listen_ep]
  · intro h1 h2 h3 h4 i m sm sf _
    simp [created, destroyed, h1, h2, h3, h4, out_free_addrinfo, out_destroy_listen_ep]
  · intro h1 h2 h3 h4 h5 m sm sf _
    simp [created, destroyed, h1, h2, h3, h4, h5, out_free_addrinfo, out_destroy_listen_ep,
      out_destroy_accept_ep]
  · intro h1 h2 h3 h4 h5 h6 sm sf _
    simp [created, destroyed, h1, h2, h3, h4, h5, h6, out_free_addrinfo,
      out_destroy_listen_ep, out_destroy_accept_ep]
  · intro h1 h2 h3 h4 h5 h6 h7 h8 _
    simp [created, destroyed, h1, h2, h3, h4, h5, h6, h8, out_free_addrinfo,
      out_destroy_listen_ep, out_destroy_accept_ep, out_dereg_recv]
  · intro h1 h2 h3 h4 h5 h6 h7 h8 h
    have hr := srv_exchange_released _ env h
    have hc := srv_exchange_created ⟨env.listen_id, env.id, env.mr, env.send_mr, 0⟩ env
    simp only [List.filterMap_cons, created, h1, h2, h4, h6, h8, hr, hc, if_true, if_false]
    simp [destroyed, out_free_addrinfo, out_destroy_listen_ep, out_destroy_accept_ep,
      out_dereg_recv, out_dereg_send]
  · intro h1 h2 h3 h4 h5 h6 h7 h
    have hr := srv_exchange_released _ env h
    have hc := srv_exchange_created ⟨env.listen_id, env.id, env.mr, 0, IBV_SEND_INLINE⟩ env
    simp only [List.filterMap_cons, created, h1, h2, h4, h6, hr, hc, if_true, if_false]
    simp [destroyed, out_free_addrinfo, out_destroy_listen_ep, out_destroy_accept_ep,
      out_dereg_recv, out_dereg_send, IBV_SEND_INLINE]

theorem srv_exchange_disconnect (g : Globals) (env : Env) (id : Nat) :
    (Event.disconnect id ∈ (exchange g env).trace → Event.accept id 0 ∈ (exchange g env).trace)
    ∧ ((∃ c, (exchange g env).outcome = Outcome.exit c) →
        Event.accept id 0 ∈ (exchange g env).trace →
        Event.disconnect id ∈ (exchange g env).trace) := by
  have A1 := not_mem_of_all_ne (Event.disconnect id) _
    (srv_all_out_dereg_send (fun x => decide (x ≠ Event.disconnect id)) g
      (by simp) (by simp) (by simp))
  have A2 := not_mem_of_all_ne (Event.accept id 0) _
    (srv_all_out_dereg_send (fun x => decide (x ≠ Event.accept id 0)) g
      (by simp) (by simp) (by simp))
  have A3 := not_mem_of_all_ne (Event.accept id 0) _
    (srv_all_out_disconnect (fun x => decide (x ≠ Event.accept id 0)) g
      (by simp) (by simp) (by simp) (by simp))
  have W1 := not_mem_of_all_ne (Event.disconnect id) _
    (waitComp_all (fun x => decide (x ≠ Event.disconnect id)) (Event.get_send_comp g.id)
      (by simp) env.send_comp)
  have W2 := not_mem_of_all_ne (Event.disconnect id) _
    (waitComp_all (fun x => decide (x ≠ Event.disconnect id)) (Event.get_recv_comp g.id)
      (by simp) env.recv_comp)
  have W3 := not_mem_of_all_ne (Event.accept id 0) _
    (waitComp_all (fun x => decide (x ≠ Event.accept id 0)) (Event.get_send_comp g.id)
      (by simp) env.send_comp)
  have W4 := not_mem_of_all_ne (Event.accept id 0) _
    (waitComp_all (fun x => decide (x ≠ Event.accept id 0)) (Event.get_recv_comp g.id)
      (by simp) env.recv_comp)
  apply srv_exchange_cases g env (fun r =>
    (Event.disconnect id ∈ r.trace → Event.accept id 0 ∈ r.trace)
    ∧ ((∃ c, r.outcome = Outcome.exit c) → Event.accept id 0 ∈ r.trace →
        Event.disconnect id ∈ r.trace))
  · intro h1
    simp [A1, A2]
  · intro h1 h2
    simp only [List.mem_cons, reduceCtorEq, false_or, Event.accept.injEq, A1, A2, or_false]
    refine ⟨fun h => absurd h (by simp), fun _ h => absurd h.2.symm h2⟩
  · intro h1 h2 hw
    simp [W2, W4, h2]
  · intro h1 h2 ret hw hret
    simp [out_disconnect, A1, A2, A3, W2, W4, h2]
  · intro h1 h2 ret hw hret h3
    simp [out_disconnect, A1, A2, A3, W2, W4, h2]
  · intro h1 h2 ret hw hret h3 hw2
    simp [W1, W2, W3, W4, h2]
  · intro h1 h2 ret hw hret h3 ret2 hw2
    simp [out_disconnect, A1, A2, A3, W1, W2, W3, W4, h2]

theorem srv_run_disconnect (env : Env) (id : Nat) :
    (Event.disconnect id ∈ (run env).trace → Event.accept id 0 ∈ (run env).trace)
    ∧ ((∃ c, (run env).outcome = Outcome.exit c) → Event.accept id 0 ∈ (run env).trace →
        Event.disconnect id ∈ (run env).trace) := by
  apply srv_run_cases env (fun r =>
    (Event.disconnect id ∈ r.trace → Event.accept id 0 ∈ r.trace)
    ∧ ((∃ c, r.outcome = Outcome.exit c) → Event.accept id 0 ∈ r.trace →
        Event.disconnect id ∈ r.trace))
  · intro h1
    simp
  · intro h1 h2
    simp [out_free_addrinfo]
  · intro h1 h2 h3 i m sm sf
    simp [out_free_addrinfo, out_destroy_listen_ep]
  · intro h1 h2 h3 h4 i m sm sf
    simp [out_free_addrinfo, out_destroy_listen_ep]
  · intro h1 h2 h3 h4 h5 m sm sf
    simp [out_free_addrinfo, out_destroy_listen_ep, out_destroy_accept_ep]
  · intro h1 h2 h3 h4 h5 h6 sm sf
    simp [out_free_addrinfo, out_destroy_listen_ep, out_destroy_accept_ep]
  · intro h1 h2 h3 h4 h5 h6 h7 h8
    simp [out_free_addrinfo, out_destroy_listen_ep, out_destroy_accept_ep, out_dereg_recv]
  · intro h1 h2 h3 h4 h5 h6 h7 h8
    simpa using srv_exchange_disconnect ⟨env.listen_id, env.id, env.mr, env.send_mr, 0⟩ env id
  · intro h1 h2 h3 h4 h5 h6 h7
    simpa using
      srv_exchange_disconnect ⟨env.listen_id, env.id, env.mr, 0, IBV_SEND_INLINE⟩ env id

end Server

/-- C11: in every execution of `run` of `rdma_client` and of `rdma_server` that
returns, the resources released (address info, endpoints, memory regions) are, in
order and with multiplicity, the resources acquired with success taken backwards,
so each one is released exactly once and nothing else is released; every release
hits the most recently acquired resource still held; `rdma_disconnect` is called
only after a successful `rdma_connect` (client) or `rdma_accept` (server) on the
same identifier, and when `run` returns it has been called if that call
succeeded. -/
theorem acquired_resources_released_once :
    (∀ env : Client.Env,
      ((∃ c, (Client.run env).outcome = Outcome.exit c) →
        (Client.run env).trace.filterMap Cm.destroyed
          = ((Client.run env).trace.filterMap Cm.created).reverse)
      ∧ lifo Cm.created Cm.destroyed [] (Client.run env).trace = true
      ∧ ∀ id,
        (Cm.Event.disconnect id ∈ (Client.run env).trace →
          Cm.Event.connect id 0 ∈ (Client.run env).trace)
        ∧ ((∃ c, (Client.run env).outcome = Outcome.exit c) →
            Cm.Event.connect id 0 ∈ (Client.run env).trace →
            Cm.Event.disconnect id ∈ (Client.run env).trace))
    ∧ (∀ env : Server.Env,
      ((∃ c, (Server.run env).outcome = Outcome.exit c) →
        (Server.run env).trace.filterMap Cm.destroyed
          = ((Server.run env).trace.filterMap Cm.created).reverse)
      ∧ lifo Cm.created Cm.destroyed [] (Server.run env).trace = true
      ∧ ∀ id,
        (Cm.Event.disconnect id ∈ (Server.run env).trace →
          Cm.Event.accept id 0 ∈ (Server.run env).trace)
        ∧ ((∃ c, (Server.run env).outcome = Outcome.exit c) →
            Cm.Event.accept id 0 ∈ (Server.run env).trace →
            Cm.Event.disconnect id ∈ (Server.run env).trace)) :=
  ⟨fun env => ⟨Client.cli_run_released env, Client.cli_run_lifo env,
      Client.cli_run_disconnect env⟩,
    fun env => ⟨Server.srv_run_released env, Server.srv_run_lifo env,
      Server.srv_run_disconnect env⟩⟩

/-- C11 at work: a server whose `rdma_post_send` returns `-1` after a successful
accept returns, having released the send region, the receive region, both
endpoints and the address info, each once. -/
theorem acquired_resources_released_once_witness :
    (∃ c, (Server.run { Server.envInline [⟨1, 0⟩] [] with
        max_inline_data := 0, send_mr := 10, post_send := -1 }).outcome = Outcome.exit c)
    ∧ (Server.run { Server.envInline [⟨1, 0⟩] [] with
        max_inline_data := 0, send_mr := 10, post_send := -1 }).trace.filterMap Cm.destroyed
      = ((Server.run { Server.envInline [⟨1, 0⟩] [] with
        max_inline_data := 0, send_mr := 10, post_send := -1 }).trace.filterMap
          Cm.created).reverse :=
  ⟨⟨-1, by decide⟩,
    (acquired_resources_released_once.2 { Server.envInline [⟨1, 0⟩] [] with
        max_inline_data := 0, send_mr := 10, post_send := -1 }).1 ⟨-1, by decide⟩⟩
